import Mathlib

/-!
Verification of the buoy-tracker ingest-and-state subsystem.

This file gives a shallow embedding, in Lean 4, of the parts of the
repository's Python source that the verified properties talk about:

* `src/mqtt_handler.py` — signal-quality scoring, per-packet-id
  deduplication of the special-node packet archive, gateway-edge
  inference from MQTT topics, best-gateway tracking, battery estimation
  from voltage, position/telemetry history append and pruning, and the
  MQTT topic parser;
* `src/alerts.py` — the alert cooldown map, its cleanup pass, and the
  movement/battery alert dispatch around the SMTP send.

Modelling conventions:

* Python floats are modelled as rationals (`ℚ`); `int(x)` (truncation
  toward zero) is `pyTrunc`.
* Python dicts keyed by node id are modelled as total functions with a
  default (matching the source's "ensure key exists" idioms), except
  where the source iterates over the dict or relies on insertion order,
  in which case association lists with Python-dict update semantics
  (`dictFind` / `dictSet`) are used.
* `None`-able values are `Option`s.  A Python `dict` record becomes a
  structure whose fields are `Option`s; an absent key is `none`.
-/

/-- Python `int(q)` on a rational: truncation toward zero
(`int(2.7) = 2`, `int(-2.7) = -2`). -/
def pyTrunc (q : ℚ) : ℤ := if 0 ≤ q then ⌊q⌋ else ⌈q⌉

/-- First-match lookup in an association list, the read side of a
Python `dict`. -/
def dictFind {α β : Type} [DecidableEq α] : List (α × β) → α → Option β
  | [], _ => none
  | (k, v) :: rest, key => if k = key then some v else dictFind rest key

/-- `d[key] = val` on a Python `dict` modelled as an association list:
update in place if the key exists (keeping insertion order), else
append at the end. -/
def dictSet {α β : Type} [DecidableEq α] : List (α × β) → α → β → List (α × β)
  | [], key, val => [(key, val)]
  | (k, v) :: rest, key, val =>
      if k = key then (k, val) :: rest else (k, v) :: dictSet rest key val

/-- Pointwise update of a total-function map (a Python dict whose
iteration order is never used). -/
def fupd {β : Type} (f : ℕ → β) (k : ℕ) (v : β) : ℕ → β :=
  fun x => if x = k then v else f x

/-! ## Battery estimation (`mqtt_handler._estimate_battery_from_voltage`,
lines 131-152, and `_extract_battery_and_voltage_from_telemetry`,
lines 1196-1264) -/

/-- `device_metrics` sub-dict of a telemetry payload. -/
structure DeviceMetrics where
  battery_level : Option ℚ := none
  voltage : Option ℚ := none
  channel_utilization : Option ℚ := none
  air_util_tx : Option ℚ := none
deriving DecidableEq, Repr

/-- `power_metrics` sub-dict of a telemetry payload. -/
structure PowerMetrics where
  ch1_voltage : Option ℚ := none
  ch3_voltage : Option ℚ := none
  ch3_current : Option ℚ := none
deriving DecidableEq, Repr

/-- A decoded telemetry payload (`decoded.payload` of a TELEMETRY_APP
packet).  The source treats it as a dict; only the keys it reads are
modelled. -/
structure TelemetryPayload where
  device_metrics : Option DeviceMetrics := none
  power_metrics : Option PowerMetrics := none
  time : Option ℚ := none
deriving DecidableEq, Repr

/-- Per-special-node configuration entry (`config.SPECIAL_NODES[id]`).
`has_power_sensor` and `voltage_channel` are read with `.get` defaults
in the source, hence optional here. -/
structure SpecialCfg where
  label : Option String := none
  home_lat : Option ℚ := none
  home_lon : Option ℚ := none
  has_power_sensor : Bool := false
  voltage_channel : Option String := none
deriving DecidableEq, Repr

/-- The configuration values the modelled code reads. -/
structure Config where
  special_nodes : List (ℕ × SpecialCfg)
  alert_cooldown : ℚ
  alert_enabled : Bool
  low_battery_threshold : ℚ
  special_history_hours : ℚ
deriving DecidableEq, Repr

/-- `config.SPECIAL_NODE_IDS = list(SPECIAL_NODES.keys())`
(config.py line 252). -/
def Config.special_node_ids (cfg : Config) : List ℕ :=
  cfg.special_nodes.map Prod.fst

/-- `_is_special_node` (mqtt_handler.py lines 80-82). -/
def is_special_node (cfg : Config) (node_id : ℕ) : Bool :=
  (dictFind cfg.special_nodes node_id).isSome

/-- `_has_power_sensor` (mqtt_handler.py lines 84-88). -/
def has_power_sensor (cfg : Config) (node_id : ℕ) : Bool :=
  match dictFind cfg.special_nodes node_id with
  | none => false
  | some sc => sc.has_power_sensor

/-- `_estimate_battery_from_voltage` (mqtt_handler.py lines 131-152).
`none` stands for Python `None` (or a non-numeric value, which the
source also maps to `None`). -/
def estimate_battery_from_voltage : Option ℚ → Option ℤ
  | none => none
  | some voltage =>
      if voltage ≥ 425/100 then some 100
      else if voltage ≤ 28/10 then some 0
      else some (max 0 (min 100 (pyTrunc ((voltage - 28/10) / (425/100 - 28/10) * 100))))

/-- `_extract_battery_and_voltage_from_telemetry` (mqtt_handler.py lines
1196-1264), returning `(battery_percent, voltage)`.  The source's
string-typed `battery.isdigit()` branch concerns malformed JSON and is
outside the numeric model; numeric battery values take the
`int` + clamp normalization exactly as in lines 1245-1252. -/
def extract_battery_and_voltage_from_telemetry
    (cfg : Config) (node_id : ℕ) (payload : TelemetryPayload) :
    Option ℤ × Option ℚ :=
  if has_power_sensor cfg node_id then
    match payload.power_metrics with
    | none => (none, none)
    | some pm =>
        let voltage_channel :=
          (match dictFind cfg.special_nodes node_id with
           | some sc => sc.voltage_channel.getD "ch3_voltage"
           | none => "ch3_voltage")
        let voltage : Option ℚ :=
          if voltage_channel = "ch3_voltage" then pm.ch3_voltage
          else if voltage_channel = "ch1_voltage" then pm.ch1_voltage
          else none
        let battery := estimate_battery_from_voltage voltage
        (battery.map (fun b => max 0 (min 100 b)), voltage)
  else
    match payload.device_metrics with
    | none => (none, none)
    | some dm =>
        let battery₀ : Option ℚ :=
          match dm.battery_level with
          | some b => some b
          | none => (estimate_battery_from_voltage dm.voltage).map (fun b => (b : ℚ))
        let battery := battery₀.map (fun b => max 0 (min 100 (pyTrunc b)))
        (battery, dm.voltage)

/-! ## Alert dispatcher (`alerts.py`) -/

/-- A key of the `last_alert_sent` dict.  Movement alerts use the bare
integer `node_id` as key (alerts.py line 99); battery alerts use the
string `f"{node_id}_battery"` (line 119).  The two never collide. -/
inductive AKey where
  | mov (node_id : ℕ)
  | batt (node_id : ℕ)
deriving DecidableEq, Repr

/-- The `last_alert_sent` module dict: key → timestamp of last send. -/
def AlertState : Type := List (AKey × ℚ)

/-- The membership test `node_id not in config.SPECIAL_NODE_IDS` that
`_cleanup_alert_history` (alerts.py line 31) performs on a key of
`last_alert_sent`.  `SPECIAL_NODE_IDS` is a list of Python ints
(config.py line 252); a movement key is an int and compares normally,
while a battery key is the string `"«id»_battery"`, and in Python a
string is never `==` an int, so the test is always false for it. -/
def akey_in_special_ids (ids : List ℕ) : AKey → Bool
  | .mov n => ids.contains n
  | .batt _ => false

/-- `_cleanup_alert_history` (alerts.py lines 19-40): drop entries whose
key fails the `SPECIAL_NODE_IDS` membership test or whose timestamp is
older than `3 × ALERT_COOLDOWN`. -/
def cleanup_alert_history (cfg : Config) (now : ℚ) (st : AlertState) : AlertState :=
  let cutoff_time := now - cfg.alert_cooldown * 3
  st.filter (fun kv =>
    akey_in_special_ids cfg.special_node_ids kv.1 && !(decide (kv.2 < cutoff_time)))

/-- The raw SMTP transaction inside `_send_email`'s `try:` block
(alerts.py lines 192-212); `smtp_ok = false` stands for any raised
`Exception` (connection refused, auth failure, timeout, …). -/
def smtp_transaction (smtp_ok : Bool) : Except String Unit :=
  if smtp_ok then .ok () else .error "smtp send raised"

/-- `_send_email` (alerts.py lines 165-214).  The whole SMTP interaction
sits in a `try/except` whose handler only logs (lines 213-214), so the
function returns normally whether or not the underlying send
succeeded. -/
def send_email (smtp_ok : Bool) : Except String Unit :=
  match smtp_transaction smtp_ok with
  | .ok _ => .ok ()
  | .error _ => .ok ()

/-- `send_movement_alert` (alerts.py lines 43-103), restricted to its
effect on `last_alert_sent`.  Returns the new dict and whether an email
dispatch was attempted.  Order of operations as in the source: cleanup,
cooldown check, enabled check, `_send_email`, then the timestamp
update; the `.error` branch models the caller's `except:` path (lines
102-103), which skips the update. -/
def send_movement_alert (cfg : Config) (smtp_ok : Bool) (now : ℚ)
    (st : AlertState) (node_id : ℕ) : AlertState × Bool :=
  let st1 := cleanup_alert_history cfg now st
  let blocked :=
    match dictFind st1 (AKey.mov node_id) with
    | some last => decide (now - last < cfg.alert_cooldown)
    | none => false
  if blocked then (st1, false)
  else if cfg.alert_enabled = false then (st1, false)
  else
    match send_email smtp_ok with
    | .ok _ => (dictSet st1 (AKey.mov node_id) now, true)
    | .error _ => (st1, false)

/-- `send_battery_alert` (alerts.py lines 106-162): same shape as the
movement alert but keyed by the `"«id»_battery"` string and with NO
cleanup pass. -/
def send_battery_alert (cfg : Config) (smtp_ok : Bool) (now : ℚ)
    (st : AlertState) (node_id : ℕ) : AlertState × Bool :=
  let blocked :=
    match dictFind st (AKey.batt node_id) with
    | some last => decide (now - last < cfg.alert_cooldown)
    | none => false
  if blocked then (st, false)
  else if cfg.alert_enabled = false then (st, false)
  else
    match send_email smtp_ok with
    | .ok _ => (dictSet st (AKey.batt node_id) now, true)
    | .error _ => (st, false)

/-! ## MQTT topic parser (`mqtt_handler._extract_channel_from_mqtt_topic`,
lines 1458-1474, and `_extract_gateway_node_id_from_topic`, lines
1477-1494) -/

/-- `topic.split('/')`. -/
def splitSlashAux : List Char → List Char → List String
  | [], acc => [String.mk acc.reverse]
  | c :: rest, acc =>
      if c = '/' then String.mk acc.reverse :: splitSlashAux rest []
      else splitSlashAux rest (c :: acc)

/-- Python `topic.split('/')` (same corner cases: `"".split('/') = [""]`,
adjacent separators yield empty segments). -/
def splitSlash (s : String) : List String := splitSlashAux s.data []

/-- `part.startswith('!')`. -/
def starts_with_bang (s : String) : Bool :=
  match s.data with
  | [] => false
  | c :: _ => decide (c = '!')

/-- Value of one hexadecimal digit, upper or lower case. -/
def hexDigit? (c : Char) : Option ℕ :=
  if '0' ≤ c ∧ c ≤ '9' then some (c.toNat - '0'.toNat)
  else if 'a' ≤ c ∧ c ≤ 'f' then some (c.toNat - 'a'.toNat + 10)
  else if 'A' ≤ c ∧ c ≤ 'F' then some (c.toNat - 'A'.toNat + 10)
  else none

/-- Accumulating hex parse; `none` once a non-hex character is seen. -/
def hexAccum : List Char → Option ℕ → Option ℕ
  | [], acc => acc
  | c :: rest, acc =>
      hexAccum rest
        (match acc, hexDigit? c with
         | some n, some d => some (n * 16 + d)
         | _, _ => none)

/-- Python `int(s, 16)` on the strings a topic segment can hold: parses a
non-empty all-hex-digit string, `none` otherwise (a raised `ValueError`).
`int()` additionally tolerates surrounding whitespace, a sign, an `0x`
prefix and underscores; those never arise in topic segments and are not
modelled. -/
def hexDecode? (cs : List Char) : Option ℕ :=
  match cs with
  | [] => none
  | _ => hexAccum cs (some 0)

/-- `parts.index('e')` guarded by `'e' in parts`: index of the first
occurrence, `none` when absent. -/
def index_of_e : List String → Option ℕ
  | [] => none
  | x :: xs => if x = "e" then some 0 else (index_of_e xs).map (· + 1)

/-- `_extract_channel_from_mqtt_topic` (mqtt_handler.py lines 1458-1474):
the segment immediately after the first literal segment `e`, unless it
is missing or starts with `'!'`, in which case `"Unknown"`. -/
def extract_channel_from_mqtt_topic (topic : String) : String :=
  match index_of_e (splitSlash topic) with
  | some e_idx =>
      match (splitSlash topic).get? (e_idx + 1) with
      | some channel => if starts_with_bang channel then "Unknown" else channel
      | none => "Unknown"
  | none => "Unknown"

/-- `_extract_gateway_node_id_from_topic` (mqtt_handler.py lines
1477-1494): hex-decode of the remainder of the first path segment
starting with `'!'`.  A decode failure raises inside the `try:` and the
`except` returns `None` — later segments are never tried. -/
def extract_gateway_node_id_from_topic (topic : String) : Option ℕ :=
  match (splitSlash topic).find? starts_with_bang with
  | some part => hexDecode? (part.data.drop 1)
  | none => none

/-- Modelled from the spec: "`gateway_node_id` = the first path segment
of form `!<8-hex>` decoded as a 32-bit integer."  A segment is of form
`!<8-hex>` when it is `'!'` followed by exactly eight hex digits. -/
def is_bang_hex8 (s : String) : Bool :=
  match s.data with
  | '!' :: rest => rest.length = 8 && rest.all (fun c => (hexDigit? c).isSome)
  | _ => false

/-- Modelled from the spec (see `is_bang_hex8`): the gateway node id the
spec sentence describes. -/
def spec_gateway_node_id_from_topic (topic : String) : Option ℕ :=
  match (splitSlash topic).find? is_bang_hex8 with
  | some part => hexDecode? (part.data.drop 1)
  | none => none

/-! ## Node state store (`mqtt_handler.py` module-level dicts) -/

/-- The fields the modelled code reads from an incoming decoded packet
dict (`json_data`).  The type-specific `decoded.payload` extras that
`_build_packet_info` copies for NODEINFO/POSITION/TELEMETRY/MAP_REPORT
packets are not read by any verified property and are not modelled. -/
structure JsonData where
  id : Option ℤ := none
  channel : Option ℤ := none
  channel_name : Option String := none
  portnum_name : Option String := none
  hop_start : Option ℤ := none
  hop_limit : Option ℤ := none
  rx_rssi : Option ℚ := none
  rx_snr : Option ℚ := none
  mqtt_topic : Option String := none
  rxTime : Option ℤ := none
deriving DecidableEq, Repr

/-- The base dict built by `_build_packet_info` (mqtt_handler.py lines
330-344). -/
structure PacketInfo where
  timestamp : ℚ
  packet_type : String
  id : Option ℤ
  channel : Option ℤ
  channel_name : String
  portnum_name : String
  hop_start : Option ℤ
  hop_limit : Option ℤ
  rx_rssi : Option ℚ
  rx_snr : Option ℚ
  mqtt_topic : Option String
deriving DecidableEq, Repr

/-- `_build_packet_info` (lines 330-344; its `node_id` argument is
unused in the source).  `channel_name` / `portnum_name` use the
`.get(..., 'Unknown')` defaults of lines 337-338. -/
def build_packet_info (packet_type : String) (j : JsonData) (current_time : ℚ) : PacketInfo :=
  { timestamp := current_time
    packet_type := packet_type
    id := j.id
    channel := j.channel
    channel_name := j.channel_name.getD "Unknown"
    portnum_name := j.portnum_name.getD "Unknown"
    hop_start := j.hop_start
    hop_limit := j.hop_limit
    rx_rssi := j.rx_rssi
    rx_snr := j.rx_snr
    mqtt_topic := j.mqtt_topic }

/-- The four signal fields `_get_signal_quality_score` reads, whether
from an incoming `json_data` or from the `old_signal_data` slice of a
stored packet (lines 427-432). -/
structure SigView where
  hop_start : Option ℤ
  hop_limit : Option ℤ
  rx_snr : Option ℚ
  rx_rssi : Option ℚ
deriving DecidableEq, Repr

/-- Signal fields of an incoming packet dict. -/
def JsonData.sig (j : JsonData) : SigView :=
  ⟨j.hop_start, j.hop_limit, j.rx_snr, j.rx_rssi⟩

/-- The `old_signal_data` slice of a stored packet (lines 427-432). -/
def PacketInfo.sig (p : PacketInfo) : SigView :=
  ⟨p.hop_start, p.hop_limit, p.rx_snr, p.rx_rssi⟩

/-- `_get_signal_quality_score` (mqtt_handler.py lines 296-328):
+1000 when `hop_start == hop_limit` (both present), plus
`max(0, min(50, int((snr + 20) * 2.5)))`, plus
`max(0, min(40, int(rssi + 120)))`; missing SNR/RSSI contribute 0. -/
def get_signal_quality_score (d : SigView) : ℤ :=
  let is_direct_hop : Bool :=
    match d.hop_start, d.hop_limit with
    | some hs, some hl => decide (hs = hl)
    | _, _ => false
  let base : ℤ := if is_direct_hop then 1000 else 0
  let snr_pts : ℤ :=
    match d.rx_snr with
    | some snr => max 0 (min 50 (pyTrunc ((snr + 20) * (5/2))))
    | none => 0
  let rssi_pts : ℤ :=
    match d.rx_rssi with
    | some rssi => max 0 (min 40 (pyTrunc (rssi + 120)))
    | none => 0
  base + snr_pts + rssi_pts

/-- The signal-quality score exactly as the claim words it — real-valued
clamps, NO integer truncation.  Kept for comparison with
`get_signal_quality_score`, which truncates with `int(...)` before
clamping. -/
def claimed_signal_score (d : SigView) : ℚ :=
  let base : ℚ :=
    match d.hop_start, d.hop_limit with
    | some hs, some hl => if hs = hl then 1000 else 0
    | _, _ => 0
  let snr_pts : ℚ :=
    match d.rx_snr with
    | some snr => min 50 (max 0 ((snr + 20) * (5/2)))
    | none => 0
  let rssi_pts : ℚ :=
    match d.rx_rssi with
    | some rssi => min 40 (max 0 (rssi + 120))
    | none => 0
  base + snr_pts + rssi_pts

/-- Value dict of `_packet_id_tracking[node_id][packet_id]` (line 452).
`signal_score` is written but never read back (comparisons recompute the
stored packet's score, lines 424-433). -/
structure TrackEntry where
  stored_index : ℕ
  signal_score : ℤ
deriving DecidableEq, Repr

/-- The `best_gateway` dict stored on a special node (mqtt_handler.py
lines 544-551).  The dict literal written there has NO `"confidence"`
key, so `confidence` is always `none` for values this code stores; the
field exists because line 527 reads it back with
`.get("confidence", "partial")`. -/
structure BestGateway where
  id : ℕ
  name : String
  lat : Option ℚ
  lon : Option ℚ
  rssi : ℚ
  snr : Option ℚ
  confidence : Option String := none
deriving DecidableEq, Repr

/-- A `connection_info` gateway-edge dict (mqtt_handler.py lines
499-510). -/
structure GatewayConnection where
  id : ℕ
  name : String
  lat : Option ℚ
  lon : Option ℚ
  rssi : Option ℚ
  snr : Option ℚ
  last_seen : ℚ
  confidence : String
  hop_start : Option ℤ
  hop_limit : Option ℤ
deriving DecidableEq, Repr

/-- A special-node history point (the dicts built at lines 251-259 and
1154-1162). -/
structure HistEntry where
  ts : ℚ
  lat : ℚ
  lon : ℚ
  alt : ℚ
  battery : Option ℚ
  rssi : Option ℚ
  snr : Option ℚ
deriving DecidableEq, Repr

/-- The merged `nodes_data[id]["telemetry"]` blob
(`_merge_telemetry_payload`, lines 1267-1295). -/
structure TelemetryBlob where
  device_metrics : Option DeviceMetrics := none
  power_metrics : Option PowerMetrics := none
  time : Option ℚ := none
deriving DecidableEq, Repr

/-- A `nodes_data[node_id]` record.  Every field is a dict key the
modelled code reads or writes; an absent key is `none`.  Note the source
uses BOTH `"lat"/"lon"/"alt"` (read by `_add_telemetry_to_history`,
lines 228-229/255) and `"latitude"/"longitude"/"altitude"` (written by
`on_position`, lines 1111-1113) — they are distinct dict keys. -/
structure NodeData where
  long_name : Option String := none
  longName : Option String := none
  lat : Option ℚ := none
  lon : Option ℚ := none
  alt : Option ℚ := none
  latitude : Option ℚ := none
  longitude : Option ℚ := none
  altitude : Option ℚ := none
  battery : Option ℚ := none
  voltage : Option ℚ := none
  telemetry : Option TelemetryBlob := none
  rx_rssi : Option ℚ := none
  rx_snr : Option ℚ := none
  last_seen : Option ℚ := none
  is_gateway : Option Bool := none
  best_gateway : Option BestGateway := none
  best_gateway_rssi : Option ℚ := none
  channel : Option ℤ := none
  channel_name : Option String := none
deriving DecidableEq, Repr

/-- The module-level mutable state of `mqtt_handler.py` that the
verified properties touch.  Dicts keyed by node id whose iteration
order the code never uses are total functions with an empty default
(mirroring the `if node_id not in d: d[node_id] = ...` idioms);
`special_node_gateways[s]` keeps Python-dict insertion order via an
association list.  The derived caches `gateway_reliability_cache` and
`gateway_info_cache` (recomputed from `special_node_gateways` by
`_update_gateway_reliability_cache_for_gateway`) are read by no verified
property and are not carried; of that update only its
`all_gateway_node_ids.add` (line 718) is kept. -/
structure MState where
  nodes_data : ℕ → Option NodeData
  special_history : ℕ → List HistEntry
  special_node_packets : ℕ → List PacketInfo
  packet_id_tracking : ℕ → List (ℤ × TrackEntry)
  special_node_gateways : ℕ → List (ℕ × GatewayConnection)
  node_is_gateway : ℕ → Bool
  all_gateway_node_ids : List ℕ
  special_node_position_timestamps : ℕ → List ℤ
  special_node_last_packet : ℕ → Option ℚ
  special_node_channels : ℕ → Option String

/-- The state at module import: every dict empty. -/
def MState.init : MState :=
  { nodes_data := fun _ => none
    special_history := fun _ => []
    special_node_packets := fun _ => []
    packet_id_tracking := fun _ => []
    special_node_gateways := fun _ => []
    node_is_gateway := fun _ => false
    all_gateway_node_ids := []
    special_node_position_timestamps := fun _ => []
    special_node_last_packet := fun _ => none
    special_node_channels := fun _ => none }

/-- `_get_node_voltage` (mqtt_handler.py lines 90-129). -/
def get_node_voltage (cfg : Config) (st : MState) (node_id : ℕ) : Option ℚ :=
  match st.nodes_data node_id with
  | none => none
  | some nd =>
      let telemetry := nd.telemetry.getD {}
      let voltage_channel :=
        match dictFind cfg.special_nodes node_id with
        | some sc => sc.voltage_channel.getD "device_voltage"
        | none => "device_voltage"
      if voltage_channel = "device_voltage" then (telemetry.device_metrics.getD {}).voltage
      else if voltage_channel = "ch3_voltage" then (telemetry.power_metrics.getD {}).ch3_voltage
      else if voltage_channel = "ch1_voltage" then (telemetry.power_metrics.getD {}).ch1_voltage
      else none

/-- `_get_battery_value_for_history` (lines 154-169).  The source
indexes `nodes_data[node_id]` directly; its call sites guarantee the
key exists, so the `none` branch is for totality only. -/
def get_battery_value_for_history (cfg : Config) (st : MState) (node_id : ℕ) : Option ℚ :=
  if has_power_sensor cfg node_id then get_node_voltage cfg st node_id
  else
    match st.nodes_data node_id with
    | some nd => nd.battery
    | none => none

/-- Python truthiness of an optional string: `None` and `""` are
falsy. -/
def py_truthy_str : Option String → Option String
  | some s => if s = "" then none else some s
  | none => none

/-- `a or b or default` on two optional strings (line 501). -/
def py_str_or (a b : Option String) (default : String) : String :=
  match py_truthy_str a with
  | some s => s
  | none =>
      match py_truthy_str b with
      | some s => s
      | none => default

/-- `.get("rx_rssi", -200) or -200` (lines 526/528): both a missing key
and a stored `0` collapse to `-200` under Python truthiness. -/
def py_rssi_or_default (v : Option ℚ) : ℚ :=
  match v with
  | none => -200
  | some r => if r = 0 then -200 else r

/-- `_record_gateway_connection` (mqtt_handler.py lines 472-558),
minus the derived reliability/info caches (see `MState`).  `now` stands
for the `time.time()` calls at lines 506 and 516 (the source reads the
clock twice; the instants are not distinguished by any verified
property). -/
def record_gateway_connection (now : ℚ) (st : MState)
    (special_node_id gateway_node_id : ℕ) (j : JsonData) (confidence : String) : MState :=
  -- lines 485-486: ensure the per-special dict exists — a no-op here
  -- lines 489-493: mark the receiving node as a gateway
  let nd1 := { (st.nodes_data gateway_node_id).getD {} with is_gateway := some true }
  let st1 : MState :=
    { st with
      nodes_data := fupd st.nodes_data gateway_node_id (some nd1)
      node_is_gateway := fupd st.node_is_gateway gateway_node_id true }
  -- line 496: gateway info read AFTER ensuring the record exists
  let gateway_info := nd1
  -- lines 499-510
  let connection_info : GatewayConnection :=
    { id := gateway_node_id
      name := py_str_or gateway_info.long_name gateway_info.longName "Unknown"
      lat := gateway_info.latitude
      lon := gateway_info.longitude
      rssi := j.rx_rssi
      snr := j.rx_snr
      last_seen := now
      confidence := confidence
      hop_start := j.hop_start
      hop_limit := j.hop_limit }
  -- line 513
  let st2 : MState :=
    { st1 with
      special_node_gateways :=
        fupd st1.special_node_gateways special_node_id
          (dictSet (st1.special_node_gateways special_node_id) gateway_node_id connection_info) }
  -- lines 516-520
  let nd2 :=
    { nd1 with
      last_seen := some now
      rx_rssi := match j.rx_rssi with | some v => some v | none => nd1.rx_rssi
      rx_snr := match j.rx_snr with | some v => some v | none => nd1.rx_snr }
  let st3 : MState := { st2 with nodes_data := fupd st2.nodes_data gateway_node_id (some nd2) }
  -- lines 525-537
  let current_best := (st3.nodes_data special_node_id).bind (·.best_gateway)
  let current_best_rssi := py_rssi_or_default (current_best.map (·.rssi))
  let current_best_confidence :=
    match current_best with
    | none => "partial"
    | some bg => bg.confidence.getD "partial"
  let incoming_rssi := py_rssi_or_default j.rx_rssi
  let should_update :=
    (decide (confidence = "direct") && decide (current_best_confidence = "partial")) ||
    (decide (confidence = current_best_confidence) && decide (incoming_rssi > current_best_rssi))
  -- lines 539-553
  let st4 : MState :=
    if should_update then
      let ndS := (st3.nodes_data special_node_id).getD {}
      let ndS' :=
        { ndS with
          best_gateway := some
            { id := gateway_node_id
              name := connection_info.name
              lat := connection_info.lat
              lon := connection_info.lon
              rssi := incoming_rssi
              snr := connection_info.snr
              confidence := none }  -- the dict literal carries no "confidence" key
          best_gateway_rssi := some incoming_rssi }
      { st3 with nodes_data := fupd st3.nodes_data special_node_id (some ndS') }
    else st3
  -- line 558 → line 718: the only modelled effect of the cache update
  { st4 with
    all_gateway_node_ids :=
      if gateway_node_id ∈ st4.all_gateway_node_ids then st4.all_gateway_node_ids
      else st4.all_gateway_node_ids ++ [gateway_node_id] }

/-- `hop_start is not None and hop_limit is not None and hop_start ==
hop_limit` (lines 310, 598). -/
def is_direct_hop (j : JsonData) : Bool :=
  match j.hop_start, j.hop_limit with
  | some hs, some hl => decide (hs = hl)
  | _, _ => false

/-- `_extract_gateway_from_packet` (mqtt_handler.py lines 560-621).
`if not mqtt_topic` treats both a missing topic and an empty string as
absent; `if gateway_node_id:` treats the decoded id `0` as absent. -/
def extract_gateway_from_packet (cfg : Config) (now : ℚ) (st : MState)
    (special_node_id : ℕ) (j : JsonData) : MState :=
  if ¬ is_special_node cfg special_node_id then st
  else
    match j.mqtt_topic with
    | none => st
    | some mqtt_topic =>
        if mqtt_topic = "" then st
        else if ¬ is_direct_hop j then st
        else
          match extract_gateway_node_id_from_topic mqtt_topic with
          | none => st
          | some gateway_node_id =>
              if gateway_node_id = 0 then st
              else
                -- lines 613-615: skeleton record for a previously unknown gateway
                let st' :=
                  match st.nodes_data gateway_node_id with
                  | none => { st with nodes_data := fupd st.nodes_data gateway_node_id (some {}) }
                  | some _ => st
                record_gateway_connection now st' special_node_id gateway_node_id j "direct"

/-- `_track_special_node_packet` (mqtt_handler.py lines 385-459).
`if not packet_id:` makes both a missing `id` and `id == 0` return
before anything is appended (lines 405-408).  On a worse-or-equal
duplicate the function returns at line 445, skipping the gateway
extraction; otherwise extraction runs on the incoming packet (line
456). -/
def track_special_node_packet (cfg : Config) (now : ℚ) (st : MState)
    (node_id : ℕ) (packet_type : String) (j : JsonData) : MState :=
  if ¬ is_special_node cfg node_id then st
  else
    -- lines 399-402: ensure per-node containers exist — no-ops here
    match j.id with
    | none => st
    | some packet_id =>
        if packet_id = 0 then st
        else
          let new_signal_score := get_signal_quality_score j.sig
          let archive := st.special_node_packets node_id
          match dictFind (st.packet_id_tracking node_id) packet_id with
          | some old_info =>
              let old_index := old_info.stored_index
              let old_signal_score :=
                match archive.get? old_index with
                | some old_packet => get_signal_quality_score old_packet.sig
                | none => 0  -- lines 434-435
              if new_signal_score > old_signal_score then
                let archive' :=
                  match archive.get? old_index with
                  | some _ => archive.set old_index (build_packet_info packet_type j now)
                  | none => archive  -- lines 441-442 re-check the bound
                let stR : MState :=
                  { st with special_node_packets := fupd st.special_node_packets node_id archive' }
                extract_gateway_from_packet cfg now stR node_id j
              else st  -- line 445: keep old packet, return
          | none =>
              let stored_index := archive.length
              let packet_info := build_packet_info packet_type j now
              let stA : MState :=
                { st with
                  special_node_packets := fupd st.special_node_packets node_id (archive ++ [packet_info])
                  packet_id_tracking :=
                    fupd st.packet_id_tracking node_id
                      (dictSet (st.packet_id_tracking node_id) packet_id
                        ⟨stored_index, new_signal_score⟩) }
              extract_gateway_from_packet cfg now stA node_id j

/-! ## History append, update and pruning (`mqtt_handler.py` lines
171-264, 723-733, 1136-1189) -/

/-- `_prune_history` (lines 723-733) on one node's deque: pop from the
left while the front entry is older than
`now_ts - SPECIAL_HISTORY_HOURS * 3600`.  The `node_id not in
special_history` early return corresponds to the empty list. -/
def prune_history (cfg : Config) (hist : List HistEntry) (now_ts : ℚ) : List HistEntry :=
  let cutoff := now_ts - cfg.special_history_hours * 3600
  hist.dropWhile (fun h => decide (h.ts < cutoff))

/-- `_find_recent_history_entry` (lines 171-189) with the default
2-second window: the newest entry when its timestamp is within the
window of `current_ts`. -/
def find_recent_history_entry (hist : List HistEntry) (current_ts : ℚ) : Option HistEntry :=
  match hist.getLast? with
  | none => none
  | some most_recent =>
      if |most_recent.ts - current_ts| < 2 then some most_recent else none

/-- One conditional improvement step of `_update_history_entry` (lines
202-208): take the incoming value when it is present and strictly
greater than the stored one (or the stored one is missing), else keep
the stored value. -/
def improve_signal_value (old incoming : Option ℚ) : Option ℚ :=
  match incoming, old with
  | some r, none => some r
  | some r, some o => if r > o then some r else some o
  | none, o => o

/-- `_update_history_entry` (lines 191-212): RSSI/SNR only improve
(strictly-greater check), battery is overwritten whenever the new value
is present.  The source mutates the entry field by field; the composed
result is this record update. -/
def update_history_entry (e : HistEntry) (rssi snr battery_value : Option ℚ) : HistEntry :=
  { e with
    rssi := improve_signal_value e.rssi rssi
    snr := improve_signal_value e.snr snr
    battery := match battery_value with | some b => some b | none => e.battery }

/-- `_add_telemetry_to_history` (lines 214-264).  The in-place mutation
of the entry returned by `_find_recent_history_entry` (always
`history[-1]`) is modelled as `dropLast ++ [updated]`.  The source
indexes `nodes_data[node_id]`; its only call site (`on_telemetry` line
1353) runs after the record was ensured at lines 1328-1329, so the
`none` branch is for totality. -/
def add_telemetry_to_history (cfg : Config) (st : MState) (node_id : ℕ)
    (j : JsonData) (now : ℚ) : MState :=
  if ¬ is_special_node cfg node_id then st
  else
    match st.nodes_data node_id with
    | none => st
    | some nd =>
        match nd.lat, nd.lon with
        | some lat, some lon =>
            if lat = 0 ∧ lon = 0 then st
            else
              let battery_value := get_battery_value_for_history cfg st node_id
              let rssi := j.rx_rssi
              let snr := j.rx_snr
              let hist := st.special_history node_id
              let hist' :=
                match find_recent_history_entry hist now with
                | some recent_entry =>
                    hist.dropLast ++ [update_history_entry recent_entry rssi snr battery_value]
                | none =>
                    hist ++ [{ ts := now, lat := lat, lon := lon, alt := nd.alt.getD 0,
                               battery := battery_value, rssi := rssi, snr := snr }]
              { st with
                special_history := fupd st.special_history node_id (prune_history cfg hist' now) }
        | _, _ => st

/-- The history-recording tail of `on_position` (mqtt_handler.py lines
1136-1189): rxTime-deduplicated append of a position history point
followed by a prune pass at the appended entry's timestamp.  `lat`,
`lon`, `alt` are the already-converted coordinates of lines 1107-1109;
the battery value is the inline copy of `_get_battery_value_for_history`
at lines 1148-1152 resp. 1173-1177. -/
def position_history_entry (cfg : Config) (st : MState) (node_id : ℕ)
    (j : JsonData) (lat lon alt : ℚ) (now : ℚ) : HistEntry :=
  { ts := now, lat := lat, lon := lon, alt := alt,
    battery := get_battery_value_for_history cfg st node_id,
    rssi := j.rx_rssi, snr := j.rx_snr }

/-- The history-recording tail of `on_position`, continued: the entry
dict of lines 1154-1162 resp. 1179-1187 is `position_history_entry`. -/
def on_position_record_history (cfg : Config) (st : MState) (node_id : ℕ)
    (j : JsonData) (lat lon alt : ℚ) (now : ℚ) : MState :=
  if ¬ is_special_node cfg node_id then st
  else
    let entry := position_history_entry cfg st node_id j lat lon alt now
    match j.rxTime with
    | some rx_time =>
        if rx_time ∈ st.special_node_position_timestamps node_id then st
        else
          { st with
            special_history :=
              fupd st.special_history node_id
                (prune_history cfg (st.special_history node_id ++ [entry]) now)
            special_node_position_timestamps :=
              fupd st.special_node_position_timestamps node_id
                (st.special_node_position_timestamps node_id ++ [rx_time]) }
    | none =>
        { st with
          special_history :=
            fupd st.special_history node_id
              (prune_history cfg (st.special_history node_id ++ [entry]) now) }

/-! ## Runs of the packet tracker, and the dedup invariant (claim C1) -/

/-- One call to `_track_special_node_packet`. -/
structure TrackInput where
  node_id : ℕ
  packet_type : String
  j : JsonData
  now : ℚ

/-- A sequence of tracker calls starting from a given state. -/
def run_tracker (cfg : Config) (st : MState) : List TrackInput → MState
  | [] => st
  | i :: rest =>
      run_tracker cfg (track_special_node_packet cfg i.now st i.node_id i.packet_type i.j) rest

/-- The tracker calls in `inputs` that delivered a copy of packet `pid`
from node `node_id`. -/
def observed_copies (inputs : List TrackInput) (node_id : ℕ) (pid : ℤ) : List TrackInput :=
  inputs.filter (fun i => decide (i.node_id = node_id) && decide (i.j.id = some pid))

/-- Maximum of a list of integers (`none` on the empty list). -/
def list_max? : List ℤ → Option ℤ
  | [] => none
  | x :: xs =>
      some (match list_max? xs with
            | none => x
            | some m => max x m)

/-- The per-packet-id dedup invariant of the special-node packet
archive: for every special node and nonzero packet id, either no copy
has been observed and none is archived, or exactly one entry with that
id is archived, it sits at the tracked index, and its (integer,
truncated) signal-quality score is the maximum over all observed
copies. -/
def DedupInvariant (cfg : Config) (inputs : List TrackInput) (st : MState) : Prop :=
  ∀ node_id pid, is_special_node cfg node_id = true → pid ≠ 0 →
    match dictFind (st.packet_id_tracking node_id) pid with
    | none =>
        observed_copies inputs node_id pid = [] ∧
        (st.special_node_packets node_id).filter (fun p => decide (p.id = some pid)) = []
    | some te =>
        observed_copies inputs node_id pid ≠ [] ∧
        ∃ p, (st.special_node_packets node_id).get? te.stored_index = some p ∧
          p.id = some pid ∧
          (st.special_node_packets node_id).filter (fun q => decide (q.id = some pid)) = [p] ∧
          list_max? ((observed_copies inputs node_id pid).map
              (fun i => get_signal_quality_score i.j.sig)) =
            some (get_signal_quality_score p.sig)

/-- The condition under which `_extract_gateway_from_packet` reaches
`_record_gateway_connection`, beyond the direct-hop test: a non-empty
`mqtt_topic` whose first `'!'` segment hex-decodes to a nonzero id. -/
def gateway_target (j : JsonData) : Option ℕ :=
  match j.mqtt_topic with
  | none => none
  | some topic =>
      if topic = "" then none
      else
        match extract_gateway_node_id_from_topic topic with
        | none => none
        | some gid => if gid = 0 then none else some gid

/-- Max of two optional values, `none` acting as the identity —
the value semantics of `_update_history_entry`'s strict-improvement
updates for RSSI/SNR. -/
def omax : Option ℚ → Option ℚ → Option ℚ
  | old, none => old
  | none, some r => some r
  | some o, some r => some (max o r)

/-! ## Concrete instances used by counterexamples and witnesses -/

/-- A small configuration: special nodes 1, 2 and 7 with no home
position and no power sensor, 1-hour cooldown, alerts enabled,
24-hour history window. -/
def demoCfg : Config :=
  { special_nodes := [(1, {}), (2, {}), (7, {})]
    alert_cooldown := 3600
    alert_enabled := true
    low_battery_threshold := 50
    special_history_hours := 24 }

/-- A direct-hop packet (`hop_start == hop_limit`) with no MQTT topic. -/
def c4_j_no_topic : JsonData := { hop_start := some 3, hop_limit := some 3 }

/-- A direct-hop packet bridged via the S6 topic. -/
def c4_j_direct : JsonData :=
  { hop_start := some 3, hop_limit := some 3
    mqtt_topic := some "msh/US/bayarea/2/e/MediumFast/!4049c6f4/json"
    rx_rssi := some (-80), rx_snr := some 5 }

/-- Packet data with RSSI −50 dBm. -/
def c5_j1 : JsonData := { rx_rssi := some (-50) }

/-- Packet data with RSSI −90 dBm. -/
def c5_j2 : JsonData := { rx_rssi := some (-90) }

/-- Gateway 100 hears special node 7 at −50 dBm (direct). -/
def c5_st1 : MState := record_gateway_connection 10 MState.init 7 100 c5_j1 "direct"

/-- Then gateway 200 hears special node 7 at −90 dBm (direct). -/
def c5_st2 : MState := record_gateway_connection 20 c5_st1 7 200 c5_j2 "direct"

/-- Copy of packet 777 with SNR −10.2 dB (relayed): truncated code
score 24, real-valued claim score 24.5. -/
def c1_jA : JsonData := { id := some 777, rx_snr := some (-51/5) }

/-- Copy of packet 777 with SNR −10.1 dB (relayed): truncated code
score 24, real-valued claim score 24.75. -/
def c1_jB : JsonData := { id := some 777, rx_snr := some (-101/10) }

/-- First tracker call: node 7 delivers copy A of packet 777. -/
def c1_iA : TrackInput := ⟨7, "POSITION_APP", c1_jA, 5⟩

/-- Second tracker call: node 7 delivers copy B of packet 777. -/
def c1_iB : TrackInput := ⟨7, "POSITION_APP", c1_jB, 6⟩

/-- A node record for node 7: known position (1, 2), no battery value. -/
def c10_nd : NodeData := { lat := some 1, lon := some 2, battery := none }

/-- State with node 7 at position (1, 2) and one history point at
t = 1000 carrying battery 50. -/
def c10_st : MState :=
  { MState.init with
    nodes_data := fupd MState.init.nodes_data 7 (some c10_nd)
    special_history :=
      fupd MState.init.special_history 7 [⟨1000, 1, 2, 0, some 50, some (-100), none⟩] }

/-- The stored dict for copy A of packet 777 (built at time 5). -/
def c1_w_p0 : PacketInfo := build_packet_info "POSITION_APP" c1_jA 5

/-- A tracker state holding exactly copy A of packet 777 for node 7. -/
def c1_w_st : MState :=
  { MState.init with
    special_node_packets := fupd MState.init.special_node_packets 7 [c1_w_p0]
    packet_id_tracking := fupd MState.init.packet_id_tracking 7 [(777, ⟨0, 24⟩)] }

/-- State with node 7 holding one history point at t = 100. -/
def c7_st : MState :=
  { MState.init with
    special_history := fupd MState.init.special_history 7 [⟨100, 1, 2, 0, none, none, none⟩] }

/-! ## Helper lemmas -/

theorem fupd_self {β : Type} (f : ℕ → β) (k : ℕ) (v : β) : fupd f k v k = v := by
  simp [fupd]

theorem fupd_other {β : Type} (f : ℕ → β) (k : ℕ) (v : β) (x : ℕ) (h : x ≠ k) :
    fupd f k v x = f x := by
  simp [fupd, h]

theorem dictFind_dictSet_self {α β : Type} [DecidableEq α] (l : List (α × β)) (k : α) (v : β) :
    dictFind (dictSet l k v) k = some v := by
  induction l with
  | nil => simp [dictSet, dictFind]
  | cons kv rest ih =>
      obtain ⟨k', v'⟩ := kv
      by_cases h : k' = k
      · subst h; simp [dictSet, dictFind]
      · simp [dictSet, dictFind, h, ih]

theorem dictFind_dictSet_other {α β : Type} [DecidableEq α] (l : List (α × β)) (k k' : α)
    (v : β) (h : k' ≠ k) : dictFind (dictSet l k v) k' = dictFind l k' := by
  induction l with
  | nil => simp [dictSet, dictFind, Ne.symm h]
  | cons kv rest ih =>
      obtain ⟨k₀, v₀⟩ := kv
      by_cases h0 : k₀ = k
      · subst h0
        simp [dictSet, dictFind, Ne.symm h]
      · simp [dictSet, dictFind, h0, ih]

theorem list_max?_append (l : List ℤ) (x : ℤ) :
    list_max? (l ++ [x]) =
      some (match list_max? l with | none => x | some m => max m x) := by
  induction l with
  | nil => rfl
  | cons y ys ih =>
      have hstep : list_max? ((y :: ys) ++ [x]) =
          some (match list_max? (ys ++ [x]) with | none => y | some m => max y m) := rfl
      rw [hstep, ih]
      cases hys : list_max? ys with
      | none => simp [list_max?, hys]
      | some m => simp [list_max?, hys, max_assoc]

theorem get?_set_self {α : Type} :
    ∀ (l : List α) (i : ℕ) (old new : α), l.get? i = some old →
      (l.set i new).get? i = some new := by
  intro l
  induction l with
  | nil => intro i old new h; simp at h
  | cons x xs ih =>
      intro i old new h
      cases i with
      | zero => simp
      | succ n => simpa using ih n old new (by simpa using h)

theorem get?_set_other {α : Type} :
    ∀ (l : List α) (i j : ℕ) (new : α), i ≠ j → (l.set i new).get? j = l.get? j := by
  intro l
  induction l with
  | nil => intro i j new _; simp
  | cons x xs ih =>
      intro i j new hij
      cases i with
      | zero =>
          cases j with
          | zero => exact absurd rfl hij
          | succ m => simp
      | succ n =>
          cases j with
          | zero => simp
          | succ m => simpa using ih n m new (fun h => hij (by rw [h]))

theorem filter_set_other (p : PacketInfo → Bool) :
    ∀ (l : List PacketInfo) (i : ℕ) (old new : PacketInfo),
      l.get? i = some old → p old = false → p new = false →
      (l.set i new).filter p = l.filter p := by
  intro l
  induction l with
  | nil => intro i old new h _ _; simp at h
  | cons x xs ih =>
      intro i old new h hold hnew
      cases i with
      | zero =>
          have hx : old = x := by simpa using h.symm
          subst hx
          simp [List.filter_cons, hold, hnew]
      | succ n =>
          have h' : xs.get? n = some old := by simpa using h
          show ((x :: xs.set n new).filter p) = (x :: xs).filter p
          simp only [List.filter_cons]
          rw [ih n old new h' hold hnew]

theorem mem_of_get?_eq_some {α : Type} :
    ∀ (l : List α) (i : ℕ) (a : α), l.get? i = some a → a ∈ l := by
  intro l
  induction l with
  | nil => intro i a h; simp at h
  | cons x xs ih =>
      intro i a h
      cases i with
      | zero => simp at h; simp [h]
      | succ n => exact List.mem_cons_of_mem x (ih n a (by simpa using h))

theorem filter_set_self (p : PacketInfo → Bool) :
    ∀ (l : List PacketInfo) (i : ℕ) (old new : PacketInfo),
      l.get? i = some old → l.filter p = [old] → p new = true →
      (l.set i new).filter p = [new] := by
  intro l
  induction l with
  | nil => intro i old new h _ _; simp at h
  | cons x xs ih =>
      intro i old new h hfil hnew
      cases i with
      | zero =>
          have hx : old = x := by simpa using h.symm
          subst hx
          by_cases hp : p old = true
          · rw [List.filter_cons, if_pos hp] at hfil
            have hxs : xs.filter p = [] := by
              have := congrArg List.tail hfil
              simpa using this
            show (new :: xs).filter p = [new]
            rw [List.filter_cons, if_pos hnew, hxs]
          · rw [List.filter_cons, if_neg hp] at hfil
            have hmem : old ∈ xs.filter p := by rw [hfil]; exact List.mem_singleton.mpr rfl
            exact absurd (List.mem_filter.mp hmem).2 hp
      | succ n =>
          have h' : xs.get? n = some old := by simpa using h
          by_cases hp : p x = true
          · -- head kept by the filter: then x = old and xs.filter p = [],
            -- but old sits in xs, contradiction
            rw [List.filter_cons, if_pos hp] at hfil
            have hxeq : x = old := by
              have := congrArg List.head? hfil
              simpa using this
            have hxs : xs.filter p = [] := by
              have := congrArg List.tail hfil
              simpa using this
            have hmem : old ∈ xs := mem_of_get?_eq_some xs n old h'
            have hpold : p old = true := hxeq ▸ hp
            have : old ∈ xs.filter p := List.mem_filter.mpr ⟨hmem, hpold⟩
            rw [hxs] at this
            simp at this
          · rw [List.filter_cons, if_neg hp] at hfil
            show ((x :: xs.set n new).filter p) = [new]
            rw [List.filter_cons, if_neg hp]
            exact ih n old new h' hfil hnew

theorem dropWhile_eq_filter_sorted (c : ℚ) :
    ∀ (l : List HistEntry), l.Pairwise (fun a b => a.ts ≤ b.ts) →
      l.dropWhile (fun h => decide (h.ts < c)) = l.filter (fun h => !decide (h.ts < c)) := by
  intro l
  induction l with
  | nil => intro _; rfl
  | cons x xs ih =>
      intro hp
      rw [List.pairwise_cons] at hp
      by_cases hx : x.ts < c
      · simp [List.dropWhile_cons, List.filter_cons, hx, ih hp.2]
      · have hall : ∀ y ∈ xs, (!decide (y.ts < c)) = true := by
          intro y hy
          have : x.ts ≤ y.ts := hp.1 y hy
          simp only [Bool.not_eq_true', decide_eq_false_iff_not]
          intro hlt
          exact hx (lt_of_le_of_lt this hlt)
        simp [List.dropWhile_cons, List.filter_cons, hx, List.filter_eq_self.mpr hall]

theorem akey_mov_ne_batt (a b : ℕ) : AKey.mov a ≠ AKey.batt b :=
  fun h => AKey.noConfusion h

theorem akey_batt_ne_mov (a b : ℕ) : AKey.batt a ≠ AKey.mov b :=
  fun h => AKey.noConfusion h

theorem index_of_e_spec :
    ∀ (l : List String) (i : ℕ), index_of_e l = some i → l.get? i = some "e" := by
  intro l
  induction l with
  | nil => intro i h; simp [index_of_e] at h
  | cons x xs ih =>
      intro i h
      by_cases hx : x = "e"
      · simp only [index_of_e, hx, if_true] at h
        cases h; simp [hx]
      · simp only [index_of_e, hx, if_false, Option.map_eq_some'] at h
        obtain ⟨i', hi', rfl⟩ := h
        simpa using ih i' hi'

/-! ## Claim theorems -/

/-- C6: battery percentage derived from voltage follows the linear
curve 2.8 V → 0 %, 4.25 V → 100 %, integer-truncated and clamped to
[0, 100]; in particular a non-power-sensor node with
`device_metrics.voltage = 3.7` and no `battery_level` stores battery
exactly 62. -/
theorem c6_battery_voltage_curve :
    (∀ v : ℚ, estimate_battery_from_voltage (some v) =
        some (max 0 (min 100 (pyTrunc ((v - 28/10) / (425/100 - 28/10) * 100))))) ∧
    extract_battery_and_voltage_from_telemetry demoCfg 7
        { device_metrics := some { battery_level := none, voltage := some (37/10) } } =
      (some 62, some (37/10)) := by
  constructor
  · intro v
    have hconv : (425/100 - 28/10 : ℚ) = 29/20 := by norm_num
    simp only [estimate_battery_from_voltage]
    split_ifs with h1 h2
    · -- v ≥ 4.25: the curve value is ≥ 100, truncation and clamping give 100
      have hq : ((v - 28/10) / (425/100 - 28/10) * 100 : ℚ) = (v - 28/10) * (2000/29) := by
        rw [hconv]; ring
      have h100 : (100:ℚ) ≤ (v - 28/10) / (425/100 - 28/10) * 100 := by
        rw [hq]; linarith
      have h0 : (0:ℚ) ≤ (v - 28/10) / (425/100 - 28/10) * 100 := by linarith
      have hpy : pyTrunc ((v - 28/10) / (425/100 - 28/10) * 100) =
          ⌊(v - 28/10) / (425/100 - 28/10) * 100⌋ := by
        simp [pyTrunc, h0]
      have hfl : (100:ℤ) ≤ ⌊(v - 28/10) / (425/100 - 28/10) * 100⌋ :=
        Int.le_floor.mpr (by exact_mod_cast h100)
      rw [hpy, min_eq_left hfl]
      norm_num
    · -- v ≤ 2.8: the curve value is ≤ 0, truncation and clamping give 0
      have hq : ((v - 28/10) / (425/100 - 28/10) * 100 : ℚ) = (v - 28/10) * (2000/29) := by
        rw [hconv]; ring
      have hle : ((v - 28/10) / (425/100 - 28/10) * 100 : ℚ) ≤ 0 := by
        rw [hq]; nlinarith
      by_cases h0 : (0:ℚ) ≤ (v - 28/10) / (425/100 - 28/10) * 100
      · have heq : ((v - 28/10) / (425/100 - 28/10) * 100 : ℚ) = 0 := le_antisymm hle h0
        rw [heq]
        simp [pyTrunc]
      · have hpy : pyTrunc ((v - 28/10) / (425/100 - 28/10) * 100) =
            ⌈(v - 28/10) / (425/100 - 28/10) * 100⌉ := by
          simp [pyTrunc, h0]
        have hc : ⌈(v - 28/10) / (425/100 - 28/10) * 100⌉ ≤ 0 :=
          Int.ceil_le.mpr (by exact_mod_cast hle)
        rw [hpy, min_eq_right (le_trans hc (by norm_num)), max_eq_left hc]
    · rfl
  · norm_num [extract_battery_and_voltage_from_telemetry, has_power_sensor, demoCfg,
      dictFind, estimate_battery_from_voltage, pyTrunc]

/-- C3 (code evidence): the cooldown timestamp advances whether or not
the SMTP send succeeds — `_send_email` swallows its exceptions, so the
alert senders' update line always runs; concretely, a dispatch whose
SMTP transaction fails still records `last_alert_sent = now`. -/
theorem c3_cooldown_advances_on_smtp_failure :
    (∀ (cfg : Config) (smtp_ok : Bool) (now : ℚ) (st : AlertState) (node_id : ℕ),
        send_movement_alert cfg smtp_ok now st node_id =
          send_movement_alert cfg true now st node_id) ∧
    (∀ (cfg : Config) (smtp_ok : Bool) (now : ℚ) (st : AlertState) (node_id : ℕ),
        send_battery_alert cfg smtp_ok now st node_id =
          send_battery_alert cfg true now st node_id) ∧
    (send_movement_alert demoCfg false 1000 [] 1).2 = true ∧
    dictFind (send_movement_alert demoCfg false 1000 [] 1).1 (AKey.mov 1) = some 1000 ∧
    (send_battery_alert demoCfg false 1000 [] 1).2 = true ∧
    dictFind (send_battery_alert demoCfg false 1000 [] 1).1 (AKey.batt 1) = some 1000 := by
  refine ⟨?_, ?_, ?_, ?_, ?_, ?_⟩
  · intro cfg smtp_ok now st node_id; cases smtp_ok <;> rfl
  · intro cfg smtp_ok now st node_id; cases smtp_ok <;> rfl
  · rfl
  · simp [send_movement_alert, cleanup_alert_history, send_email, smtp_transaction,
      dictFind, dictSet, demoCfg]
  · rfl
  · simp [send_battery_alert, send_email, smtp_transaction, dictFind, dictSet, demoCfg]

/-- C2 (code evidence): the cleanup pass run by a movement-alert
dispatch removes every battery cooldown entry (string keys never pass
the integer `SPECIAL_NODE_IDS` membership test), so a battery alert for
a configured node re-fires inside its cooldown window: battery alerts
for node 1 are emitted at t = 1000 and t = 1020 with a 3600 s cooldown,
and the entry dropped at t = 1010 was neither stale nor
unconfigured. -/
theorem c2_cleanup_wipes_battery_cooldowns :
    (send_battery_alert demoCfg true 1000 [] 1).2 = true ∧
    dictFind (send_battery_alert demoCfg true 1000 [] 1).1 (AKey.batt 1) = some 1000 ∧
    dictFind (send_movement_alert demoCfg true 1010
        (send_battery_alert demoCfg true 1000 [] 1).1 2).1 (AKey.batt 1) = none ∧
    (1:ℕ) ∈ demoCfg.special_node_ids ∧
    ¬((1000:ℚ) < 1010 - demoCfg.alert_cooldown * 3) ∧
    (send_battery_alert demoCfg true 1020
        (send_movement_alert demoCfg true 1010
          (send_battery_alert demoCfg true 1000 [] 1).1 2).1 1).2 = true ∧
    (1020:ℚ) - 1000 < demoCfg.alert_cooldown := by
  refine ⟨rfl, ?_, ?_, ?_, ?_, ?_, ?_⟩
  · simp [send_battery_alert, send_email, smtp_transaction, dictFind, dictSet, demoCfg]
  · norm_num [send_battery_alert, send_movement_alert, cleanup_alert_history,
      akey_in_special_ids, Config.special_node_ids, send_email, smtp_transaction,
      dictFind, dictSet, demoCfg, akey_mov_ne_batt, akey_batt_ne_mov]
  · norm_num [demoCfg, Config.special_node_ids]
  · norm_num [demoCfg]
  · norm_num [send_battery_alert, send_movement_alert, cleanup_alert_history,
      akey_in_special_ids, Config.special_node_ids, send_email, smtp_transaction,
      dictFind, dictSet, demoCfg, akey_mov_ne_batt, akey_batt_ne_mov]
  · norm_num [demoCfg]

/-- C9 counterexample: a packet from special node 7 with no `id` field
is NOT appended to the archive — `_track_special_node_packet` returns
at lines 406-408 before any append, so the archive stays empty. -/
theorem c9_counterexample :
    is_special_node demoCfg 7 = true ∧
    ({} : JsonData).id = none ∧
    (track_special_node_packet demoCfg 5 MState.init 7 "POSITION_APP" {}).special_node_packets 7
      = [] := by
  refine ⟨by decide, rfl, rfl⟩

/-- C9 amended: a packet whose `id` is missing (or 0, which Python's
`if not packet_id:` also treats as missing) leaves the tracker state
completely unchanged — it is neither archived nor deduplicated, and
gateway extraction is skipped for it. -/
theorem c9_amended (cfg : Config) (now : ℚ) (st : MState) (node_id : ℕ)
    (packet_type : String) (j : JsonData)
    (h : j.id = none ∨ j.id = some 0) :
    track_special_node_packet cfg now st node_id packet_type j = st := by
  unfold track_special_node_packet
  rcases h with h | h <;> rw [h] <;> split <;> rfl

/-- Witness for `c9_amended` at a concrete input. -/
theorem c9_amended_witness :
    (({} : JsonData).id = none ∨ ({} : JsonData).id = some 0) ∧
    track_special_node_packet demoCfg 5 MState.init 7 "TELEMETRY_APP" {} = MState.init :=
  ⟨Or.inl rfl, c9_amended demoCfg 5 MState.init 7 "TELEMETRY_APP" {} (Or.inl rfl)⟩

/-- C8 counterexample: on the topic `msh/!zz/!4049c6f4/json` the
spec-worded parser ("the first path segment of form `!<8-hex>`") yields
`0x4049c6f4`, but the code takes the FIRST segment starting with `'!'`
(`!zz`), fails to hex-decode it, and returns no gateway id at all. -/
theorem c8_counterexample :
    extract_gateway_node_id_from_topic "msh/!zz/!4049c6f4/json" = none ∧
    spec_gateway_node_id_from_topic "msh/!zz/!4049c6f4/json" = some 0x4049c6f4 := by
  constructor <;> decide

/-- C8 amended: the channel name is the segment immediately after the
first literal segment `e` (when present and not starting with `'!'`),
and the gateway id is the hex-decode of the remainder of the FIRST
segment starting with `'!'` — any hex length, no fallback to later
segments on failure; S6 parses to `MediumFast` / `0x4049c6f4`. -/
theorem c8_topic_parsing :
    (extract_channel_from_mqtt_topic "msh/US/bayarea/2/e/MediumFast/!4049c6f4/json"
        = "MediumFast" ∧
     extract_gateway_node_id_from_topic "msh/US/bayarea/2/e/MediumFast/!4049c6f4/json"
        = some 0x4049c6f4) ∧
    (∀ topic g, extract_gateway_node_id_from_topic topic = some g →
        ∃ p, p ∈ splitSlash topic ∧ starts_with_bang p = true ∧
          hexDecode? (p.data.drop 1) = some g) ∧
    (∀ topic c, extract_channel_from_mqtt_topic topic = c → c ≠ "Unknown" →
        ∃ i, (splitSlash topic).get? i = some "e" ∧
          (splitSlash topic).get? (i + 1) = some c ∧ starts_with_bang c = false) := by
  refine ⟨⟨by decide, by decide⟩, ?_, ?_⟩
  · intro topic g h
    unfold extract_gateway_node_id_from_topic at h
    cases hfind : (splitSlash topic).find? starts_with_bang with
    | none => rw [hfind] at h; exact absurd h (by simp)
    | some part =>
        rw [hfind] at h
        exact ⟨part, List.mem_of_find?_eq_some hfind, List.find?_some hfind, h⟩
  · intro topic c h hu
    unfold extract_channel_from_mqtt_topic at h
    cases hidx : index_of_e (splitSlash topic) with
    | none => rw [hidx] at h; exact absurd h.symm hu
    | some e_idx =>
        rw [hidx] at h
        dsimp only at h
        cases hget : (splitSlash topic).get? (e_idx + 1) with
        | none => rw [hget] at h; dsimp only at h; exact absurd h.symm hu
        | some channel =>
            rw [hget] at h
            dsimp only at h
            by_cases hbang : starts_with_bang channel = true
            · rw [if_pos hbang] at h; exact absurd h.symm hu
            · rw [if_neg hbang] at h
              subst h
              exact ⟨e_idx, index_of_e_spec _ _ hidx, hget, by simpa using hbang⟩

/-- Witness for `c8_topic_parsing` at the S6 topic. -/
theorem c8_topic_parsing_witness :
    (∃ p, p ∈ splitSlash "msh/US/bayarea/2/e/MediumFast/!4049c6f4/json" ∧
        starts_with_bang p = true ∧ hexDecode? (p.data.drop 1) = some 0x4049c6f4) ∧
    (∃ i, (splitSlash "msh/US/bayarea/2/e/MediumFast/!4049c6f4/json").get? i = some "e" ∧
        (splitSlash "msh/US/bayarea/2/e/MediumFast/!4049c6f4/json").get? (i + 1)
          = some "MediumFast" ∧
        starts_with_bang "MediumFast" = false) :=
  ⟨c8_topic_parsing.2.1 _ _ (by decide),
   c8_topic_parsing.2.2 _ _ (by decide) (by decide)⟩

/-- What `_record_gateway_connection` guarantees for the recorded edge
and the gateway's node record, for any inputs. -/
theorem record_gateway_spec (now : ℚ) (st : MState) (sid gid : ℕ)
    (j : JsonData) (conf : String) :
    (dictFind ((record_gateway_connection now st sid gid j conf).special_node_gateways sid) gid).map
        (fun ci => (ci.confidence, ci.hop_start, ci.hop_limit, ci.rssi, ci.snr, ci.id))
      = some (conf, j.hop_start, j.hop_limit, j.rx_rssi, j.rx_snr, gid) ∧
    (record_gateway_connection now st sid gid j conf).node_is_gateway gid = true ∧
    ((record_gateway_connection now st sid gid j conf).nodes_data gid).map (fun nd => nd.is_gateway)
      = some (some true) := by
  unfold record_gateway_connection
  dsimp only
  refine ⟨?_, ?_, ?_⟩
  · split <;> (dsimp only; rw [fupd_self, dictFind_dictSet_self]; rfl)
  · split <;> (dsimp only; rw [fupd_self])
  · split
    · by_cases hsg : gid = sid
      · subst hsg; simp [fupd]
      · simp [fupd, hsg]
    · simp [fupd]

/-- C4 amended: for a packet from a special node, a gateway edge is
recorded iff `hop_start == hop_limit` (both present) AND the packet has
an MQTT topic whose first `'!'` segment hex-decodes to a nonzero id;
in every other case (relayed packets with `hop_start > hop_limit`
included) the state is completely unchanged.  When an edge is recorded
its confidence is `"direct"`, the gateway node is marked
`is_gateway = true`, and it holds a node record (a fresh skeleton if it
was previously unknown). -/
theorem c4_gateway_edge_iff (cfg : Config) (now : ℚ) (st : MState) (sid : ℕ)
    (j : JsonData) (hspec : is_special_node cfg sid = true) :
    ((is_direct_hop j = false ∨ gateway_target j = none) →
        extract_gateway_from_packet cfg now st sid j = st) ∧
    (∀ gid, is_direct_hop j = true → gateway_target j = some gid →
        (dictFind ((extract_gateway_from_packet cfg now st sid j).special_node_gateways sid) gid).map
            (fun ci => (ci.confidence, ci.hop_start, ci.hop_limit, ci.rssi, ci.snr, ci.id))
          = some ("direct", j.hop_start, j.hop_limit, j.rx_rssi, j.rx_snr, gid) ∧
        (extract_gateway_from_packet cfg now st sid j).node_is_gateway gid = true ∧
        ((extract_gateway_from_packet cfg now st sid j).nodes_data gid).map (fun nd => nd.is_gateway)
          = some (some true)) := by
  have hshape : extract_gateway_from_packet cfg now st sid j =
      (match gateway_target j, is_direct_hop j with
       | some gid, true =>
           record_gateway_connection now
             (match st.nodes_data gid with
              | none => { st with nodes_data := fupd st.nodes_data gid (some {}) }
              | some _ => st) sid gid j "direct"
       | _, _ => st) := by
    unfold extract_gateway_from_packet
    rw [hspec]
    simp only [not_true, if_false]
    cases htop : j.mqtt_topic with
    | none =>
        have htgt : gateway_target j = none := by simp [gateway_target, htop]
        rw [htgt]
    | some topic =>
        dsimp only
        by_cases hemp : topic = ""
        · have htgt : gateway_target j = none := by simp [gateway_target, htop, hemp]
          rw [if_pos hemp, htgt]
        · rw [if_neg hemp]
          cases hdir : is_direct_hop j with
          | false =>
              rw [if_pos (by simp [hdir])]
              cases htgt : gateway_target j <;> rfl
          | true =>
              rw [if_neg (by simp [hdir])]
              cases hex : extract_gateway_node_id_from_topic topic with
              | none =>
                  have htgt : gateway_target j = none := by
                    simp [gateway_target, htop, hemp, hex]
                  rw [htgt]
              | some gid =>
                  dsimp only
                  by_cases h0 : gid = 0
                  · have htgt : gateway_target j = none := by
                      simp [gateway_target, htop, hemp, hex, h0]
                    rw [if_pos h0, htgt]
                  · have htgt : gateway_target j = some gid := by
                      simp [gateway_target, htop, hemp, hex, h0]
                    rw [if_neg h0, htgt]
  constructor
  · intro h
    rw [hshape]
    rcases h with h | h
    · rw [h]
      cases gateway_target j <;> rfl
    · rw [h]
  · intro gid hdir htgt
    rw [hshape, htgt, hdir]
    dsimp only
    cases hnode : st.nodes_data gid with
    | none =>
        dsimp only
        exact record_gateway_spec now
          { st with nodes_data := fupd st.nodes_data gid (some {}) } sid gid j "direct"
    | some nd0 =>
        dsimp only
        exact record_gateway_spec now st sid gid j "direct"

/-- C4 counterexample: a direct-hop packet (`hop_start = hop_limit = 3`)
from special node 7 with NO MQTT topic produces no gateway edge — the
state is untouched — refuting "an edge is recorded iff `hop_start` and
`hop_limit` are both present and equal". -/
theorem c4_counterexample :
    is_special_node demoCfg 7 = true ∧
    is_direct_hop c4_j_no_topic = true ∧
    extract_gateway_from_packet demoCfg 5 MState.init 7 c4_j_no_topic = MState.init := by
  refine ⟨by decide, by decide, ?_⟩
  rfl

/-- Witness for `c4_gateway_edge_iff` at a concrete direct-hop packet
with the S6 topic. -/
theorem c4_gateway_edge_iff_witness :
    is_special_node demoCfg 7 = true ∧ is_direct_hop c4_j_direct = true ∧
    gateway_target c4_j_direct = some 0x4049c6f4 ∧
    ((dictFind ((extract_gateway_from_packet demoCfg 5 MState.init 7 c4_j_direct).special_node_gateways 7)
          0x4049c6f4).map
        (fun ci => (ci.confidence, ci.hop_start, ci.hop_limit, ci.rssi, ci.snr, ci.id))
      = some ("direct", c4_j_direct.hop_start, c4_j_direct.hop_limit,
          c4_j_direct.rx_rssi, c4_j_direct.rx_snr, 0x4049c6f4) ∧
     (extract_gateway_from_packet demoCfg 5 MState.init 7 c4_j_direct).node_is_gateway 0x4049c6f4
        = true ∧
     ((extract_gateway_from_packet demoCfg 5 MState.init 7 c4_j_direct).nodes_data 0x4049c6f4).map
        (fun nd => nd.is_gateway) = some (some true)) :=
  ⟨by decide, by decide, by decide,
   (c4_gateway_edge_iff demoCfg 5 MState.init 7 c4_j_direct (by decide)).2
     0x4049c6f4 (by decide) (by decide)⟩

/-- C7: after a position append followed by a prune pass at time `now`
(history timestamps nondecreasing and not in the future — as produced
by the code's monotone `time.time()` appends), every remaining point
satisfies
`now - ts ≤ SPECIAL_HISTORY_HOURS · 3600`, and pruning removes exactly
the points with `ts < now - SPECIAL_HISTORY_HOURS · 3600` and nothing
newer. -/
theorem c7_history_prune (cfg : Config) (st : MState) (node_id : ℕ) (j : JsonData)
    (lat lon alt now : ℚ) (entry : HistEntry)
    (hspec : is_special_node cfg node_id = true)
    (hrx : j.rxTime = none)
    (hsorted : (st.special_history node_id).Pairwise (fun a b => a.ts ≤ b.ts))
    (hpast : ∀ h ∈ st.special_history node_id, h.ts ≤ now)
    (hentry : position_history_entry cfg st node_id j lat lon alt now = entry) :
    (on_position_record_history cfg st node_id j lat lon alt now).special_history node_id =
      (st.special_history node_id ++ [entry]).filter
        (fun h => !decide (h.ts < now - cfg.special_history_hours * 3600)) ∧
    ∀ h ∈ (on_position_record_history cfg st node_id j lat lon alt now).special_history node_id,
      now - h.ts ≤ cfg.special_history_hours * 3600 := by
  have hts : entry.ts = now := by rw [← hentry]; rfl
  have hres : (on_position_record_history cfg st node_id j lat lon alt now).special_history node_id =
      prune_history cfg (st.special_history node_id ++ [entry]) now := by
    unfold on_position_record_history
    rw [hspec]
    simp only [not_true, if_false]
    rw [hrx]
    dsimp only
    rw [hentry, fupd_self]
  have hsorted' : (st.special_history node_id ++ [entry]).Pairwise
      (fun a b => a.ts ≤ b.ts) := by
    rw [List.pairwise_append]
    refine ⟨hsorted, List.pairwise_singleton _ _, fun a ha b hb => ?_⟩
    have hb' : b = entry := by simpa using hb
    rw [hb', hts]
    exact hpast a ha
  have hfil : (on_position_record_history cfg st node_id j lat lon alt now).special_history node_id =
      (st.special_history node_id ++ [entry]).filter
        (fun h => !decide (h.ts < now - cfg.special_history_hours * 3600)) := by
    rw [hres]
    unfold prune_history
    exact dropWhile_eq_filter_sorted _ _ hsorted'
  refine ⟨hfil, ?_⟩
  intro h hmem
  rw [hfil] at hmem
  have hkeep := (List.mem_filter.mp hmem).2
  simp only [Bool.not_eq_true', decide_eq_false_iff_not, not_lt] at hkeep
  linarith

/-- Witness for `c7_history_prune`: one stored point at t = 100,
append at `now` = 200 with a 24-hour window. -/
theorem c7_history_prune_witness :
    is_special_node demoCfg 7 = true ∧
    ({} : JsonData).rxTime = none ∧
    (c7_st.special_history 7).Pairwise (fun a b => a.ts ≤ b.ts) ∧
    (∀ h ∈ c7_st.special_history 7, h.ts ≤ (200:ℚ)) ∧
    ((on_position_record_history demoCfg c7_st 7 {} 1 2 0 200).special_history 7 =
      (c7_st.special_history 7 ++
          [position_history_entry demoCfg c7_st 7 {} 1 2 0 200]).filter
        (fun h => !decide (h.ts < 200 - demoCfg.special_history_hours * 3600)) ∧
     ∀ h ∈ (on_position_record_history demoCfg c7_st 7 {} 1 2 0 200).special_history 7,
       (200:ℚ) - h.ts ≤ demoCfg.special_history_hours * 3600) :=
  ⟨by decide, rfl,
   by simp [c7_st, MState.init, fupd],
   by intro h hmem; simp [c7_st, MState.init, fupd] at hmem; rw [hmem]; norm_num,
   c7_history_prune demoCfg c7_st 7 {} 1 2 0 200
     (position_history_entry demoCfg c7_st 7 {} 1 2 0 200) (by decide) rfl
     (by simp [c7_st, MState.init, fupd])
     (by intro h hmem; simp [c7_st, MState.init, fupd] at hmem; rw [hmem]; norm_num)
     rfl⟩

/-- C10 amended: when a telemetry packet arrives for a special node
whose record carries a valid `lat`/`lon` (present, not both 0) and the
newest history point is within 2 seconds of now, NO new point is
appended: the newest point is updated in place (then the prune pass
runs).  The update takes the maximum of old and new RSSI and SNR
(missing values act as identity) and overwrites battery only when the
incoming value is present — a `none` battery leaves the stored value
untouched. -/
theorem c10_telemetry_history_update (cfg : Config) (st : MState) (node_id : ℕ)
    (j : JsonData) (now : ℚ) (nd : NodeData) (lat lon : ℚ) (e : HistEntry)
    (hnd : st.nodes_data node_id = some nd)
    (hspec : is_special_node cfg node_id = true)
    (hlat : nd.lat = some lat) (hlon : nd.lon = some lon)
    (hpos : ¬(lat = 0 ∧ lon = 0))
    (hlast : (st.special_history node_id).getLast? = some e)
    (hwin : |e.ts - now| < 2) :
    (add_telemetry_to_history cfg st node_id j now).special_history node_id =
      prune_history cfg ((st.special_history node_id).dropLast ++
        [update_history_entry e j.rx_rssi j.rx_snr
          (get_battery_value_for_history cfg st node_id)]) now ∧
    (∀ (e' : HistEntry) (r s b : Option ℚ),
        (update_history_entry e' r s b).rssi = omax e'.rssi r ∧
        (update_history_entry e' r s b).snr = omax e'.snr s ∧
        (update_history_entry e' r s b).battery = (if b.isSome then b else e'.battery) ∧
        (update_history_entry e' r s b).ts = e'.ts ∧
        (update_history_entry e' r s b).lat = e'.lat ∧
        (update_history_entry e' r s b).lon = e'.lon) := by
  constructor
  · unfold add_telemetry_to_history
    rw [hspec]
    simp only [not_true, if_false]
    rw [hnd]
    dsimp only
    rw [hlat, hlon]
    dsimp only
    rw [if_neg hpos]
    have hrecent : find_recent_history_entry (st.special_history node_id) now = some e := by
      unfold find_recent_history_entry
      rw [hlast]
      dsimp only
      rw [if_pos hwin]
    rw [hrecent]
    dsimp only
    rw [fupd_self]
  · intro e' r s b
    have himp : ∀ old incoming : Option ℚ, improve_signal_value old incoming = omax old incoming := by
      intro old incoming
      cases incoming with
      | none => cases old <;> rfl
      | some v =>
          cases old with
          | none => rfl
          | some o =>
              by_cases hv : v > o
              · simp [improve_signal_value, omax, hv, max_eq_right (le_of_lt hv)]
              · simp [improve_signal_value, omax, hv, max_eq_left (not_lt.mp hv)]
    refine ⟨himp e'.rssi r, himp e'.snr s, ?_, rfl, rfl, rfl⟩
    cases b <;> rfl

/-- C10 counterexample: node 7 has a stored history point with battery
50; a telemetry packet arrives 1 s later while the latest battery value
is `None` — the stored battery stays 50 instead of being
"unconditionally overwritten with the latest one". -/
theorem c10_counterexample :
    get_battery_value_for_history demoCfg c10_st 7 = none ∧
    ((add_telemetry_to_history demoCfg c10_st 7 {} 1001).special_history 7).map
        (fun h => h.battery) = [some 50] := by
  constructor
  · norm_num [get_battery_value_for_history, has_power_sensor, demoCfg, dictFind,
      c10_st, c10_nd, MState.init, fupd]
  · norm_num [add_telemetry_to_history, is_special_node, demoCfg, dictFind, c10_st, c10_nd,
      MState.init, fupd, find_recent_history_entry, update_history_entry,
      get_battery_value_for_history, has_power_sensor, prune_history, abs_lt]

/-- Witness for `c10_telemetry_history_update` at the concrete state of
`c10_st`. -/
theorem c10_telemetry_history_update_witness :
    c10_st.nodes_data 7 = some c10_nd ∧
    is_special_node demoCfg 7 = true ∧
    c10_nd.lat = some 1 ∧ c10_nd.lon = some 2 ∧
    ¬((1:ℚ) = 0 ∧ (2:ℚ) = 0) ∧
    (c10_st.special_history 7).getLast? = some ⟨1000, 1, 2, 0, some 50, some (-100), none⟩ ∧
    |(1000:ℚ) - 1001| < 2 ∧
    ((add_telemetry_to_history demoCfg c10_st 7 {} 1001).special_history 7 =
      prune_history demoCfg ((c10_st.special_history 7).dropLast ++
        [update_history_entry ⟨1000, 1, 2, 0, some 50, some (-100), none⟩
          ({} : JsonData).rx_rssi ({} : JsonData).rx_snr
          (get_battery_value_for_history demoCfg c10_st 7)]) 1001) :=
  ⟨rfl, by decide, rfl, rfl, by norm_num,
   by simp [c10_st, MState.init, fupd],
   by norm_num,
   (c10_telemetry_history_update demoCfg c10_st 7 {} 1001 c10_nd 1 2
      ⟨1000, 1, 2, 0, some 50, some (-100), none⟩ rfl (by decide) rfl rfl
      (by norm_num) (by simp [c10_st, MState.init, fupd]) (by norm_num)).1⟩

/-- `_record_gateway_connection` never touches the packet archive or
the packet-id tracking dicts. -/
theorem record_gateway_archive_fields (now : ℚ) (st : MState)
    (sid gid : ℕ) (j : JsonData) (conf : String) :
    (record_gateway_connection now st sid gid j conf).special_node_packets
        = st.special_node_packets ∧
    (record_gateway_connection now st sid gid j conf).packet_id_tracking
        = st.packet_id_tracking := by
  unfold record_gateway_connection
  dsimp only
  constructor <;> (split <;> rfl)

/-- `_extract_gateway_from_packet` never touches the packet archive or
the packet-id tracking dicts. -/
theorem extract_gateway_archive_fields (cfg : Config) (now : ℚ) (st : MState)
    (sid : ℕ) (j : JsonData) :
    (extract_gateway_from_packet cfg now st sid j).special_node_packets
        = st.special_node_packets ∧
    (extract_gateway_from_packet cfg now st sid j).packet_id_tracking
        = st.packet_id_tracking := by
  unfold extract_gateway_from_packet
  constructor <;>
    (repeat' split) <;>
    first
      | rfl
      | (rw [(record_gateway_archive_fields _ _ _ _ _ _).1])
      | (rw [(record_gateway_archive_fields _ _ _ _ _ _).2])

/-- The tracker leaves other nodes' archive and tracking untouched. -/
theorem track_archive_other (cfg : Config) (now : ℚ) (st : MState) (inode : ℕ)
    (ptype : String) (j : JsonData) (node : ℕ) (hne : node ≠ inode) :
    (track_special_node_packet cfg now st inode ptype j).special_node_packets node
        = st.special_node_packets node ∧
    (track_special_node_packet cfg now st inode ptype j).packet_id_tracking node
        = st.packet_id_tracking node := by
  unfold track_special_node_packet
  constructor <;>
    (repeat' (first | split | dsimp only)) <;>
    first
      | rfl
      | (rw [(extract_gateway_archive_fields _ _ _ _ _).1] <;>
          (dsimp only; rw [fupd_other _ _ _ _ hne]))
      | (rw [(extract_gateway_archive_fields _ _ _ _ _).2] <;>
          (dsimp only; first | rfl | rw [fupd_other _ _ _ _ hne]))

/-- `observed_copies` over an extended run. -/
theorem observed_copies_append (inputs : List TrackInput) (i : TrackInput)
    (node_id : ℕ) (pid : ℤ) :
    observed_copies (inputs ++ [i]) node_id pid =
      observed_copies inputs node_id pid ++
        (if i.node_id = node_id ∧ i.j.id = some pid then [i] else []) := by
  unfold observed_copies
  rw [List.filter_append]
  congr 1
  by_cases hc : i.node_id = node_id ∧ i.j.id = some pid
  · simp [hc.1, hc.2]
  · rw [if_neg hc]
    by_cases h1 : i.node_id = node_id
    · have h2 : ¬ i.j.id = some pid := fun hh => hc ⟨h1, hh⟩
      simp [h1, h2]
    · simp [h1]

/-- The rebuilt stored dict carries the incoming packet's signal
fields. -/
theorem build_packet_info_sig (ptype : String) (j : JsonData) (now : ℚ) :
    (build_packet_info ptype j now).sig = j.sig := rfl

/-- The rebuilt stored dict carries the incoming packet's id. -/
theorem build_packet_info_id (ptype : String) (j : JsonData) (now : ℚ) :
    (build_packet_info ptype j now).id = j.id := rfl

/-- An element found by `get?` survives appending on the right. -/
theorem get?_append_left {α : Type} :
    ∀ (l l' : List α) (n : ℕ) (a : α), l.get? n = some a → (l ++ l').get? n = some a := by
  intro l
  induction l with
  | nil => intro l' n a h; simp at h
  | cons x xs ih =>
      intro l' n a h
      cases n with
      | zero => simpa using h
      | succ m => simpa using ih l' m a (by simpa using h)

/-- Tracker evaluation, fresh packet id: the packet is appended and the
id is tracked at the archive's old length. -/
theorem track_eval_new (cfg : Config) (now : ℚ) (st : MState) (node : ℕ)
    (ptype : String) (j : JsonData) (pid : ℤ)
    (hsp : is_special_node cfg node = true) (hid : j.id = some pid) (hpid : ¬ pid = 0)
    (hfind : dictFind (st.packet_id_tracking node) pid = none) :
    (track_special_node_packet cfg now st node ptype j).special_node_packets node =
      st.special_node_packets node ++ [build_packet_info ptype j now] ∧
    (track_special_node_packet cfg now st node ptype j).packet_id_tracking node =
      dictSet (st.packet_id_tracking node) pid
        ⟨(st.special_node_packets node).length, get_signal_quality_score j.sig⟩ := by
  constructor
  · unfold track_special_node_packet
    rw [if_neg (by simp [hsp]), hid]
    try dsimp only
    rw [if_neg hpid]
    try dsimp only
    rw [hfind]
    try dsimp only
    rw [(extract_gateway_archive_fields _ _ _ _ _).1]
    try dsimp only
    rw [fupd_self]
  · unfold track_special_node_packet
    rw [if_neg (by simp [hsp]), hid]
    try dsimp only
    rw [if_neg hpid]
    try dsimp only
    rw [hfind]
    try dsimp only
    rw [(extract_gateway_archive_fields _ _ _ _ _).2]
    try dsimp only
    rw [fupd_self]

/-- Tracker evaluation, duplicate packet id: the stored copy is
replaced in place iff the incoming score is strictly higher, and the
tracking dict is untouched; a worse-or-equal copy leaves the whole
state unchanged. -/
theorem track_eval_dup (cfg : Config) (now : ℚ) (st : MState) (node : ℕ)
    (ptype : String) (j : JsonData) (pid : ℤ) (te : TrackEntry) (p : PacketInfo)
    (hsp : is_special_node cfg node = true) (hid : j.id = some pid) (hpid : ¬ pid = 0)
    (hfind : dictFind (st.packet_id_tracking node) pid = some te)
    (hget : (st.special_node_packets node).get? te.stored_index = some p) :
    (get_signal_quality_score j.sig > get_signal_quality_score p.sig →
        (track_special_node_packet cfg now st node ptype j).special_node_packets node =
          (st.special_node_packets node).set te.stored_index
            (build_packet_info ptype j now) ∧
        (track_special_node_packet cfg now st node ptype j).packet_id_tracking node =
          st.packet_id_tracking node) ∧
    (¬ get_signal_quality_score j.sig > get_signal_quality_score p.sig →
        track_special_node_packet cfg now st node ptype j = st) := by
  constructor
  · intro hgt
    constructor
    · unfold track_special_node_packet
      rw [if_neg (by simp [hsp]), hid]
      try dsimp only
      rw [if_neg hpid]
      try dsimp only
      rw [hfind]
      try dsimp only
      rw [hget]
      try dsimp only
      rw [if_pos hgt]
      try dsimp only
      rw [(extract_gateway_archive_fields _ _ _ _ _).1]
      try dsimp only
      rw [fupd_self]
    · unfold track_special_node_packet
      rw [if_neg (by simp [hsp]), hid]
      try dsimp only
      rw [if_neg hpid]
      try dsimp only
      rw [hfind]
      try dsimp only
      rw [hget]
      try dsimp only
      rw [if_pos hgt]
      try dsimp only
      rw [(extract_gateway_archive_fields _ _ _ _ _).2]
  · intro hgt
    unfold track_special_node_packet
    rw [if_neg (by simp [hsp]), hid]
    try dsimp only
    rw [if_neg hpid]
    try dsimp only
    rw [hfind]
    try dsimp only
    rw [hget]
    try dsimp only
    rw [if_neg hgt]

/-- One tracker call preserves the archive dedup invariant. -/
theorem dedup_invariant_step (cfg : Config) (inputs : List TrackInput) (st : MState)
    (i : TrackInput) (h : DedupInvariant cfg inputs st) :
    DedupInvariant cfg (inputs ++ [i])
      (track_special_node_packet cfg i.now st i.node_id i.packet_type i.j) := by
  obtain ⟨inode, ptype, j, now⟩ := i
  intro node_id pid hspec hpid
  by_cases hsp : is_special_node cfg inode = true
  case neg =>
    have hstate : track_special_node_packet cfg now st inode ptype j = st := by
      unfold track_special_node_packet
      rw [if_pos hsp]
    have hcop : observed_copies (inputs ++ [⟨inode, ptype, j, now⟩]) node_id pid =
        observed_copies inputs node_id pid := by
      rw [observed_copies_append]
      try dsimp only
      rw [if_neg (by rintro ⟨rfl, -⟩; exact hsp hspec), List.append_nil]
    rw [hstate, hcop]
    exact h node_id pid hspec hpid
  case pos =>
  cases hid : j.id with
  | none =>
      have hstate : track_special_node_packet cfg now st inode ptype j = st := by
        unfold track_special_node_packet
        rw [if_neg (by simp [hsp]), hid]
      have hcop : observed_copies (inputs ++ [⟨inode, ptype, j, now⟩]) node_id pid =
          observed_copies inputs node_id pid := by
        rw [observed_copies_append]
        try dsimp only
        rw [if_neg (by rintro ⟨-, hh⟩; rw [hid] at hh; exact Option.noConfusion hh),
          List.append_nil]
      rw [hstate, hcop]
      exact h node_id pid hspec hpid
  | some q =>
      by_cases hq0 : q = 0
      · have hstate : track_special_node_packet cfg now st inode ptype j = st := by
          unfold track_special_node_packet
          rw [if_neg (by simp [hsp]), hid]
          try dsimp only
          rw [if_pos hq0]
        have hcop : observed_copies (inputs ++ [⟨inode, ptype, j, now⟩]) node_id pid =
            observed_copies inputs node_id pid := by
          rw [observed_copies_append]
          try dsimp only
          rw [if_neg ?_, List.append_nil]
          rintro ⟨-, hh⟩
          rw [hid] at hh
          exact hpid (by injection hh with hh; rw [← hh, hq0])
        rw [hstate, hcop]
        exact h node_id pid hspec hpid
      · by_cases hnode : inode = node_id
        case neg =>
          obtain ⟨hpk, htr⟩ :=
            track_archive_other cfg now st inode ptype j node_id (fun hh => hnode hh.symm)
          have hcop : observed_copies (inputs ++ [⟨inode, ptype, j, now⟩]) node_id pid =
              observed_copies inputs node_id pid := by
            rw [observed_copies_append]
            try dsimp only
            rw [if_neg (by rintro ⟨hh, -⟩; exact hnode hh), List.append_nil]
          rw [htr, hpk, hcop]
          exact h node_id pid hspec hpid
        case pos =>
          subst hnode
          have hcop_add : observed_copies (inputs ++ [⟨inode, ptype, j, now⟩]) inode q =
              observed_copies inputs inode q ++ [⟨inode, ptype, j, now⟩] := by
            rw [observed_copies_append]
            try dsimp only
            rw [if_pos ⟨rfl, hid⟩]
          by_cases hqp : q = pid
          · subst hqp
            cases hfind : dictFind (st.packet_id_tracking inode) q with
            | none =>
                obtain ⟨hpk, htr⟩ := track_eval_new cfg now st inode ptype j q hsp hid hq0 hfind
                have h0 := h inode q hspec hpid
                rw [hfind] at h0
                obtain ⟨hcop0, hfil0⟩ := h0
                rw [htr, dictFind_dictSet_self, hpk, hcop_add, hcop0]
                try dsimp only
                refine ⟨by simp, build_packet_info ptype j now, ?_, ?_, ?_, ?_⟩
                · exact List.get?_concat_length _ _
                · rw [build_packet_info_id, hid]
                · rw [List.filter_append, hfil0]
                  simp [build_packet_info_id, hid]
                · simp [list_max?, build_packet_info_sig]
            | some te =>
                have h0 := h inode q hspec hpid
                rw [hfind] at h0
                obtain ⟨hne0, p, hget, hpid_p, hfil0, hmax0⟩ := h0
                have hev := track_eval_dup cfg now st inode ptype j q te p hsp hid hq0 hfind hget
                by_cases hgt :
                    get_signal_quality_score j.sig > get_signal_quality_score p.sig
                · obtain ⟨hpk, htr⟩ := hev.1 hgt
                  rw [htr, hfind, hpk, hcop_add]
                  try dsimp only
                  refine ⟨by simp [hne0], build_packet_info ptype j now, ?_, ?_, ?_, ?_⟩
                  · exact get?_set_self _ _ _ _ hget
                  · rw [build_packet_info_id, hid]
                  · exact filter_set_self _ _ _ _ _ hget hfil0
                      (by simp [build_packet_info_id, hid])
                  · rw [List.map_append]
                    simp only [List.map_cons, List.map_nil]
                    rw [list_max?_append, hmax0]
                    try dsimp only
                    rw [build_packet_info_sig, max_eq_right (le_of_lt hgt)]
                · rw [hev.2 hgt, hfind, hcop_add]
                  try dsimp only
                  refine ⟨by simp [hne0], p, hget, hpid_p, hfil0, ?_⟩
                  rw [List.map_append]
                  simp only [List.map_cons, List.map_nil]
                  rw [list_max?_append, hmax0]
                  try dsimp only
                  rw [max_eq_left (not_lt.mp hgt)]
          · -- the incoming packet has a different id q ≠ pid
            have hcop : observed_copies (inputs ++ [⟨inode, ptype, j, now⟩]) inode pid =
                observed_copies inputs inode pid := by
              rw [observed_copies_append]
              try dsimp only
              rw [if_neg ?_, List.append_nil]
              rintro ⟨-, hh⟩
              rw [hid] at hh
              exact hqp (by injection hh)
            cases hfindq : dictFind (st.packet_id_tracking inode) q with
            | none =>
                obtain ⟨hpk, htr⟩ :=
                  track_eval_new cfg now st inode ptype j q hsp hid hq0 hfindq
                rw [htr, dictFind_dictSet_other _ _ _ _ (fun hh => hqp hh.symm), hpk, hcop]
                have h0 := h inode pid hspec hpid
                cases hfind : dictFind (st.packet_id_tracking inode) pid with
                | none =>
                    rw [hfind] at h0
                    obtain ⟨hcop0, hfil0⟩ := h0
                    refine ⟨hcop0, ?_⟩
                    rw [List.filter_append, hfil0]
                    simp [build_packet_info_id, hid, hqp]
                | some te =>
                    rw [hfind] at h0
                    obtain ⟨hne0, p, hget, hpid_p, hfil0, hmax0⟩ := h0
                    refine ⟨hne0, p, get?_append_left _ _ _ _ hget, hpid_p, ?_, hmax0⟩
                    rw [List.filter_append, hfil0]
                    simp [build_packet_info_id, hid, hqp]
            | some teq =>
                have hq := h inode q hspec hq0
                rw [hfindq] at hq
                obtain ⟨hneq, pq, hgetq, hpidq, hfilq, hmaxq⟩ := hq
                have hev :=
                  track_eval_dup cfg now st inode ptype j q teq pq hsp hid hq0 hfindq hgetq
                by_cases hgt :
                    get_signal_quality_score j.sig > get_signal_quality_score pq.sig
                · obtain ⟨hpk, htr⟩ := hev.1 hgt
                  rw [htr, hpk, hcop]
                  have h0 := h inode pid hspec hpid
                  cases hfind : dictFind (st.packet_id_tracking inode) pid with
                  | none =>
                      rw [hfind] at h0
                      obtain ⟨hcop0, hfil0⟩ := h0
                      refine ⟨hcop0, ?_⟩
                      rw [filter_set_other _ _ _ _ _ hgetq
                        (by simp [hpidq, hqp])
                        (by simp [build_packet_info_id, hid, hqp])]
                      exact hfil0
                  | some te =>
                      rw [hfind] at h0
                      obtain ⟨hne0, p, hget, hpid_p, hfil0, hmax0⟩ := h0
                      have hne_idx : teq.stored_index ≠ te.stored_index := by
                        intro hh
                        rw [← hh, hgetq] at hget
                        have hpq : pq = p := by injection hget
                        rw [hpq, hpid_p] at hpidq
                        exact hqp (by injection hpidq with hh2; rw [hh2])
                      refine ⟨hne0, p, ?_, hpid_p, ?_, hmax0⟩
                      · rw [get?_set_other _ _ _ _ hne_idx]
                        exact hget
                      · rw [filter_set_other _ _ _ _ _ hgetq
                          (by simp [hpidq, hqp])
                          (by simp [build_packet_info_id, hid, hqp])]
                        exact hfil0
                · rw [hev.2 hgt, hcop]
                  exact h inode pid hspec hpid

/-- The empty run satisfies the dedup invariant. -/
theorem dedup_invariant_init (cfg : Config) : DedupInvariant cfg [] MState.init := by
  intro node_id pid _ _
  exact ⟨rfl, rfl⟩

/-- Any run from an invariant state stays invariant. -/
theorem dedup_invariant_run (cfg : Config) :
    ∀ (inputs acc : List TrackInput) (st : MState),
      DedupInvariant cfg acc st →
      DedupInvariant cfg (acc ++ inputs) (run_tracker cfg st inputs) := by
  intro inputs
  induction inputs with
  | nil => intro acc st h; simpa using h
  | cons i rest ih =>
      intro acc st h
      have hstep := dedup_invariant_step cfg acc st i h
      have hrun := ih (acc ++ [i]) _ hstep
      rw [show acc ++ i :: rest = (acc ++ [i]) ++ rest by simp]
      exact hrun

/-- C1 amended: for every run of the tracker from the empty state, the
per-special-node archive never holds two entries with the same packet
id; the retained entry for a packet id sits at its tracked index and
its signal-quality score — computed with Python's `int()` TRUNCATION
before the clamps, i.e. `max(0, min(50, int((snr+20)·2.5)))` and
`max(0, min(40, int(rssi+120)))` on top of the +1000 direct-hop bonus —
is the maximum truncated score among all copies observed so far.
Moreover, a newly arriving copy of a tracked id replaces the stored
entry in place iff its truncated score is strictly higher, and is
discarded otherwise. -/
theorem c1_archive_dedup (cfg : Config) (inputs : List TrackInput) :
    DedupInvariant cfg inputs (run_tracker cfg MState.init inputs) ∧
    (∀ (st : MState) (node_id : ℕ) (i : TrackInput) (pid : ℤ) (te : TrackEntry)
        (p : PacketInfo),
        is_special_node cfg node_id = true → i.node_id = node_id → i.j.id = some pid →
        pid ≠ 0 →
        dictFind (st.packet_id_tracking node_id) pid = some te →
        (st.special_node_packets node_id).get? te.stored_index = some p →
        (track_special_node_packet cfg i.now st node_id i.packet_type i.j).special_node_packets node_id
          = (if get_signal_quality_score i.j.sig > get_signal_quality_score p.sig
             then (st.special_node_packets node_id).set te.stored_index
               (build_packet_info i.packet_type i.j i.now)
             else st.special_node_packets node_id)) := by
  constructor
  · have hrun := dedup_invariant_run cfg inputs [] MState.init (dedup_invariant_init cfg)
    simpa using hrun
  · intro st node_id i pid te p hspec _hnode hid hpid hfind hget
    by_cases hgt : get_signal_quality_score i.j.sig > get_signal_quality_score p.sig
    · rw [if_pos hgt]
      exact ((track_eval_dup cfg i.now st node_id i.packet_type i.j pid te p hspec hid
        hpid hfind hget).1 hgt).1
    · rw [if_neg hgt,
        (track_eval_dup cfg i.now st node_id i.packet_type i.j pid te p hspec hid
          hpid hfind hget).2 hgt]

/-- Witness for `c1_archive_dedup` at a concrete one-packet state. -/
theorem c1_archive_dedup_witness :
    is_special_node demoCfg 7 = true ∧ c1_iB.node_id = 7 ∧ c1_iB.j.id = some 777 ∧
    (777:ℤ) ≠ 0 ∧
    dictFind (c1_w_st.packet_id_tracking 7) 777 = some ⟨0, 24⟩ ∧
    (c1_w_st.special_node_packets 7).get? 0 = some c1_w_p0 ∧
    (track_special_node_packet demoCfg c1_iB.now c1_w_st 7 c1_iB.packet_type
        c1_iB.j).special_node_packets 7
      = (if get_signal_quality_score c1_iB.j.sig > get_signal_quality_score c1_w_p0.sig
         then (c1_w_st.special_node_packets 7).set 0
           (build_packet_info c1_iB.packet_type c1_iB.j c1_iB.now)
         else c1_w_st.special_node_packets 7) :=
  ⟨by decide, rfl, rfl, by decide, rfl, rfl,
   (c1_archive_dedup demoCfg []).2 c1_w_st 7 c1_iB 777 ⟨0, 24⟩ c1_w_p0
     (by decide) rfl rfl (by decide) rfl rfl⟩

/-- C1 counterexample: copies A (SNR −10.2) and B (SNR −10.1) of packet
777 both truncate to code score 24, so B is discarded and A is
retained — yet under the claim's real-valued score (no truncation) B
scores 24.75 > 24.5, so the retained copy does NOT have the maximum
claimed score among observed copies. -/
theorem c1_counterexample :
    ((run_tracker demoCfg MState.init [c1_iA, c1_iB]).special_node_packets 7).map
        (fun p => p.rx_snr) = [some (-51/5)] ∧
    claimed_signal_score c1_jA.sig < claimed_signal_score c1_jB.sig := by
  constructor
  · norm_num [run_tracker, track_special_node_packet, extract_gateway_from_packet,
      is_special_node, dictFind, dictSet, fupd, MState.init, get_signal_quality_score,
      JsonData.sig, PacketInfo.sig, pyTrunc, c1_iA, c1_iB, c1_jA, c1_jB, demoCfg,
      build_packet_info]
  · norm_num [claimed_signal_score, JsonData.sig, c1_jA, c1_jB, min_def, max_def]

/-- C5 (code evidence): after gateway 100 is recorded at −50 dBm and
then gateway 200 at −90 dBm (both direct), `best_gateway` is gateway
200 with `rssi = −90`, yet the edge set still holds gateway 100 at
−50 dBm with the same (highest) confidence level `"direct"` and
−90 < −50 — so `best_gateway.rssi` is NOT the maximum edge RSSI.  The
cause: the stored `best_gateway` dict carries no `"confidence"` key, so
the `direct`-beats-`partial` test always fires and the latest direct
recording wins. -/
theorem c5_best_gateway_latest_wins :
    ((c5_st2.nodes_data 7).bind (·.best_gateway)).map (fun bg => (bg.id, bg.rssi))
        = some (200, -90) ∧
    (dictFind (c5_st2.special_node_gateways 7) 100).map (fun ci => (ci.confidence, ci.rssi))
        = some ("direct", some (-50)) ∧
    (dictFind (c5_st2.special_node_gateways 7) 200).map (fun ci => (ci.confidence, ci.rssi))
        = some ("direct", some (-90)) ∧
    ((-90 : ℚ) < -50) := by
  refine ⟨?_, ?_, ?_, by norm_num⟩ <;>
    norm_num [c5_st2, c5_st1, record_gateway_connection, MState.init, fupd, dictSet, dictFind,
      py_rssi_or_default, py_str_or, py_truthy_str, c5_j1, c5_j2, demoCfg]
